import Mathlib

/-!
Verification of the CHIP-8 emulator core (package `emulator`, file
`emulator.go`) and of the disassembler (`trace` package, `Instruction.String`).

The Go code is shallowly embedded: machine integers become `Nat` with explicit
reductions modulo 2^8 or 2^16 exactly where the Go arithmetic wraps, Go array
indexing becomes list indexing guarded by the same bounds the Go runtime
checks (an out-of-range index aborts execution, modelled by an `aborted`
result carrying the runtime error message and the machine state at the point
of the abort, since partial mutations of the receiver persist in Go), and the
fetch/decode/execute `switch` becomes a chain of equality tests on the same
masked values the source computes.
-/

set_option maxRecDepth 100000

namespace Chip8

/-- Bytes wrap modulo 2^8 (Go `uint8`). -/
def byteMod (n : Nat) : Nat := n % 256

/-- Words wrap modulo 2^16 (Go `uint16`). -/
def wordMod (n : Nat) : Nat := n % 65536

/-- The display geometry constants from the source. -/
def DisplayWidth : Nat := 64

/-- Height of the display in pixels. -/
def DisplayHeight : Nat := 32

/-- Opcode field masks, from the `emulator` package constants. -/
def MaskFamily : Nat := 0xf000

/-- Second nibble: first register index (Vx). -/
def MaskX : Nat := 0x0f00

/-- Third nibble: second register index (Vy). -/
def MaskY : Nat := 0x00f0

/-- Low nibble: 4-bit constant or ALU sub-opcode. -/
def MaskN : Nat := 0x000f

/-- Low byte: 8-bit constant or sys/key/misc sub-opcode. -/
def MaskKK : Nat := 0x00ff

/-- Low 12 bits: memory address. -/
def MaskNNN : Nat := 0x0fff

/-- Shift converting the masked Vx field to a register index. -/
def ShiftX : Nat := 8

/-- Shift converting the masked Vy field to a register index. -/
def ShiftY : Nat := 4

/-- The machine state, mirroring Go `type State struct` field for field.
`V` has 16 byte entries, `Stack` 16 word entries, `Memory` 4096 byte
entries, `Display` 32 rows of 64 cells, `Keys` 16 booleans. -/
structure State where
  V : List Nat
  I : Nat
  SP : Nat
  DT : Nat
  ST : Nat
  PC : Nat
  Stack : List Nat
  Memory : List Nat
  Display : List (List Nat)
  Keys : List Bool
deriving DecidableEq

/-- The emulator: machine state plus the wait-for-key latch, mirroring Go
`type Emulator struct` (the `rng` callback is supplied to `Step` as an
explicit argument; the `sound` callback is not needed for the claims). -/
structure Emulator where
  state : State
  waitKey : Bool
  waitKeyRegister : Nat
deriving DecidableEq

/-- Result of running one instruction handler over the state: either a
normal new state, or a Go runtime abort (array index out of range) with the
message and the state at the abort. -/
inductive ExecResult where
  | ok (s : State)
  | aborted (msg : String) (s : State)
deriving DecidableEq

/-- Result of `Step`: `cont e` models `return true`, `stop e` models
`return false` (HALT), and `aborted` models a Go `panic` unwinding out of
`Step` (invalid opcode, or an index out of range). -/
inductive StepResult where
  | cont (e : Emulator)
  | stop (e : Emulator)
  | aborted (msg : String) (e : Emulator)
deriving DecidableEq

/-- The Go runtime message for an out-of-range index on an array of the
given length. -/
def oobMsg (idx len : Nat) : String :=
  "runtime error: index out of range [" ++ toString idx ++ "] with length " ++ toString len

/-- Read register `V[i]` (indices produced by the source are < 16). -/
def getV (s : State) (i : Nat) : Nat := s.V.getD i 0

/-- Write register `V[i]`. -/
def setV (s : State) (i v : Nat) : State := { s with V := s.V.set i v }

/-- Read a display pixel `Display[r][c]`. -/
def pixel (s : State) (r c : Nat) : Nat := (s.Display.getD r []).getD c 0

/-- `Display[r][c] ^= 1`. -/
def togglePixel (s : State) (r c : Nat) : State :=
  { s with Display := s.Display.set r ((s.Display.getD r []).set c (pixel s r c ^^^ 1)) }

/-- Go `s.Memory[idx]` on the 4096-entry array: the runtime bound check. -/
def memRead (s : State) (idx : Nat) : Except String Nat :=
  if idx < 4096 then .ok (s.Memory.getD idx 0) else .error (oobMsg idx 4096)

/-- Go `s.Memory[idx] = v` on the 4096-entry array. -/
def memWrite (s : State) (idx v : Nat) : ExecResult :=
  if idx < 4096 then .ok { s with Memory := s.Memory.set idx v }
  else .aborted (oobMsg idx 4096) s

/-- Extract `x := (op & 0x0f00) >> 8`. -/
def opX (op : Nat) : Nat := (op &&& MaskX) >>> ShiftX

/-- Extract `y := (op & 0x00f0) >> 4`. -/
def opY (op : Nat) : Nat := (op &&& MaskY) >>> ShiftY

/-- `func (s *State) Instruction() uint16`: big-endian fetch of the two
bytes at PC and PC+1, each access bound-checked like the Go runtime. -/
def Instruction (s : State) : Except String Nat :=
  match memRead s s.PC with
  | .error m => .error m
  | .ok hi =>
    match memRead s (wordMod (s.PC + 1)) with
    | .error m => .error m
    | .ok lo => .ok (hi <<< 8 ||| lo)

/-- `clearDisplay`: zero the framebuffer, PC += 2. -/
def clearDisplay (s : State) : State :=
  { s with Display := List.replicate 32 (List.replicate 64 0),
           PC := wordMod (s.PC + 2) }

/-- `functionReturn` (00EE): `SP--` (uint8 wrap), `PC = Stack[SP]`,
`PC += 2`. The SP decrement persists even when the stack read aborts. -/
def functionReturn (s : State) : ExecResult :=
  let sp := byteMod (s.SP + 255)
  let s1 := { s with SP := sp }
  if sp < 16 then
    .ok { s1 with PC := wordMod (s1.Stack.getD sp 0 + 2) }
  else
    .aborted (oobMsg sp 16) s1

/-- `jump` (1nnn): `PC = op & 0x0fff`. -/
def jump (s : State) (op : Nat) : State := { s with PC := op &&& MaskNNN }

/-- `functionCall` (2nnn): `Stack[SP] = PC; SP++; PC = op & 0xfff`. The
stack write is bound-checked first; on an abort nothing was mutated. -/
def functionCall (s : State) (op : Nat) : ExecResult :=
  if s.SP < 16 then
    .ok { s with Stack := s.Stack.set s.SP s.PC,
                 SP := byteMod (s.SP + 1),
                 PC := op &&& 0xfff }
  else
    .aborted (oobMsg s.SP 16) s

/-- `skipIfConstantEqual` (3xkk). -/
def skipIfConstantEqual (s : State) (op : Nat) : State :=
  if getV s (opX op) = (op &&& MaskKK) then { s with PC := wordMod (s.PC + 4) }
  else { s with PC := wordMod (s.PC + 2) }

/-- `skipIfConstantNotEqual` (4xkk). -/
def skipIfConstantNotEqual (s : State) (op : Nat) : State :=
  if getV s (opX op) ≠ (op &&& MaskKK) then { s with PC := wordMod (s.PC + 4) }
  else { s with PC := wordMod (s.PC + 2) }

/-- `skipIfRegisterEqual` (5xy0). -/
def skipIfRegisterEqual (s : State) (op : Nat) : State :=
  if getV s (opX op) = getV s (opY op) then { s with PC := wordMod (s.PC + 4) }
  else { s with PC := wordMod (s.PC + 2) }

/-- `loadRegisterFromConstant` (6xkk). -/
def loadRegisterFromConstant (s : State) (op : Nat) : State :=
  { setV s (opX op) (op &&& MaskKK) with PC := wordMod (s.PC + 2) }

/-- `incrementRegister` (7xkk): uint8 wrapping add. -/
def incrementRegister (s : State) (op : Nat) : State :=
  { setV s (opX op) (byteMod (getV s (opX op) + (op &&& MaskKK))) with
    PC := wordMod (s.PC + 2) }

/-- `loadRegisterFromRegister` (8xy0). -/
def loadRegisterFromRegister (s : State) (op : Nat) : State :=
  { setV s (opX op) (getV s (opY op)) with PC := wordMod (s.PC + 2) }

/-- `bitwiseOr` (8xy1): `V[x] |= V[y]`, then `V[0xf] = 0`, PC += 2. -/
def bitwiseOr (s : State) (op : Nat) : State :=
  let s1 := setV s (opX op) (getV s (opX op) ||| getV s (opY op))
  { setV s1 0xf 0 with PC := wordMod (s.PC + 2) }

/-- `bitwiseAnd` (8xy2): `V[x] &= V[y]`, then `V[0xf] = 0`, PC += 2. -/
def bitwiseAnd (s : State) (op : Nat) : State :=
  let s1 := setV s (opX op) (getV s (opX op) &&& getV s (opY op))
  { setV s1 0xf 0 with PC := wordMod (s.PC + 2) }

/-- `bitwiseXor` (8xy3): `V[x] ^= V[y]`, then `V[0xf] = 0`, PC += 2. -/
def bitwiseXor (s : State) (op : Nat) : State :=
  let s1 := setV s (opX op) (getV s (opX op) ^^^ getV s (opY op))
  { setV s1 0xf 0 with PC := wordMod (s.PC + 2) }

/-- `addWithCarry` (8xy4): the carry is decided from the operand values
(`V[x] > 0xff−V[y]`), the wrapping sum is stored in `V[x]`, and only then is
the flag committed to `V[0xf]`. -/
def addWithCarry (s : State) (op : Nat) : State :=
  let x := opX op
  let y := opY op
  let carry := getV s x > 0xff - getV s y
  let s1 := setV s x (byteMod (getV s x + getV s y))
  { setV s1 0xf (if carry then 1 else 0) with PC := wordMod (s.PC + 2) }

/-- `subtractRightWithBorrow` (8xy5): `noBorrow := V[x] ≥ V[y]`; wrapping
difference into `V[x]`; then `V[0xf] = noBorrow`. -/
def subtractRightWithBorrow (s : State) (op : Nat) : State :=
  let x := opX op
  let y := opY op
  let noBorrow := getV s x ≥ getV s y
  let s1 := setV s x (byteMod (getV s x + 256 - byteMod (getV s y)))
  { setV s1 0xf (if noBorrow then 1 else 0) with PC := wordMod (s.PC + 2) }

/-- `subtractLeftWithBorrow` (8xy7): `noBorrow := V[y] ≥ V[x]`;
`V[x] = V[y] − V[x]` wrapping; then `V[0xf] = noBorrow`. -/
def subtractLeftWithBorrow (s : State) (op : Nat) : State :=
  let x := opX op
  let y := opY op
  let noBorrow := getV s y ≥ getV s x
  let s1 := setV s x (byteMod (getV s y + 256 - byteMod (getV s x)))
  { setV s1 0xf (if noBorrow then 1 else 0) with PC := wordMod (s.PC + 2) }

/-- `shiftRight` (8xy6): `V[x] = V[y]`; carry from the new `V[x] & 1`;
`V[x] >>= 1`; then `V[0xf] = carry`. -/
def shiftRight (s : State) (op : Nat) : State :=
  let x := opX op
  let y := opY op
  let s1 := setV s x (getV s y)
  let carry := getV s1 x &&& 0x01 ≠ 0
  let s2 := setV s1 x (getV s1 x >>> 1)
  { setV s2 0xf (if carry then 1 else 0) with PC := wordMod (s.PC + 2) }

/-- `shiftLeft` (8xyE): `V[x] = V[y]`; carry from the new `V[x] & 0x80`;
`V[x] <<= 1` (uint8 wrap); then `V[0xf] = carry`. -/
def shiftLeft (s : State) (op : Nat) : State :=
  let x := opX op
  let y := opY op
  let s1 := setV s x (getV s y)
  let carry := getV s1 x &&& 0x80 ≠ 0
  let s2 := setV s1 x (byteMod (getV s1 x <<< 1))
  { setV s2 0xf (if carry then 1 else 0) with PC := wordMod (s.PC + 2) }

/-- `skipIfRegisterNotEqual` (9xy0). -/
def skipIfRegisterNotEqual (s : State) (op : Nat) : State :=
  if getV s (opX op) ≠ getV s (opY op) then { s with PC := wordMod (s.PC + 4) }
  else { s with PC := wordMod (s.PC + 2) }

/-- `loadIndex` (Annn): `I = op & 0x0fff`. -/
def loadIndex (s : State) (op : Nat) : State :=
  { s with I := op &&& MaskNNN, PC := wordMod (s.PC + 2) }

/-- `jumpRelative` (Bnnn): `PC = uint16(V[0]) + nnn`. -/
def jumpRelative (s : State) (op : Nat) : State :=
  { s with PC := wordMod (getV s 0 + (op &&& MaskNNN)) }

/-- `generateRandomNumber` (Cxkk): `V[x] = uint8(r) & uint8(kk)`; the host
RNG value `r` is passed in. -/
def generateRandomNumber (s : State) (op r : Nat) : State :=
  { setV s (opX op) (byteMod r &&& (op &&& MaskKK)) with PC := wordMod (s.PC + 2) }

/-- The inner column loop of `draw`: for the remaining iterations of
`for dx := range 8`, `px := bx + dx`; break when `px ≥ 64`; when the sprite
bit `sprite & (0x80 >> dx)` is set, record a collision in `V[0xf]` if the
pixel was on, then XOR the pixel. -/
def drawCols (sprite bx py : Nat) (s : State) : Nat → Nat → State
  | _, 0 => s
  | dx, rem + 1 =>
    let px := bx + dx
    if px ≥ 64 then s
    else
      let s1 :=
        if sprite &&& (0x80 >>> dx) ≠ 0 then
          let s0 := if pixel s py px ≠ 0 then setV s 0xf 1 else s
          togglePixel s0 py px
        else s
      drawCols sprite bx py s1 (dx + 1) rem

/-- The outer row loop of `draw`: for the remaining iterations of
`for dy := range n`, read `sprite := Memory[I+dy]` (bound-checked), compute
`py := by + dy`, break when `py ≥ 32`, else run the column loop. -/
def drawRows (bx by_ : Nat) (s : State) : Nat → Nat → ExecResult
  | _, 0 => .ok s
  | dy, rem + 1 =>
    let addr := wordMod (s.I + dy)
    if addr < 4096 then
      let sprite := s.Memory.getD addr 0
      let py := by_ + dy
      if py ≥ 32 then .ok s
      else drawRows bx by_ (drawCols sprite bx py s 0 8) (dy + 1) rem
    else .aborted (oobMsg addr 4096) s

/-- `draw` (Dxyn): clear `V[0xf]` first, then read the origin registers
(`bx := V[x] % 64`, `by := V[y] % 32`) from the already-updated file, run
the row loop, and advance PC. -/
def draw (s : State) (op : Nat) : ExecResult :=
  let x := opX op
  let y := opY op
  let n := op &&& MaskN
  let s0 := setV s 0xf 0
  let bx := getV s0 x % DisplayWidth
  let by_ := getV s0 y % DisplayHeight
  match drawRows bx by_ s0 0 n with
  | .ok s1 => .ok { s1 with PC := wordMod (s1.PC + 2) }
  | .aborted m s1 => .aborted m s1

/-- `skipIfKeyPressed` (Ex9E): test `Keys[V[x] & 0xf]`. -/
def skipIfKeyPressed (s : State) (op : Nat) : State :=
  if s.Keys.getD (getV s (opX op) &&& 0xf) false then { s with PC := wordMod (s.PC + 4) }
  else { s with PC := wordMod (s.PC + 2) }

/-- `skipIfKeyNotPressed` (ExA1). -/
def skipIfKeyNotPressed (s : State) (op : Nat) : State :=
  if s.Keys.getD (getV s (opX op) &&& 0xf) false then { s with PC := wordMod (s.PC + 2) }
  else { s with PC := wordMod (s.PC + 4) }

/-- `loadRegisterFromDelayTimer` (Fx07). -/
def loadRegisterFromDelayTimer (s : State) (op : Nat) : State :=
  { setV s (opX op) s.DT with PC := wordMod (s.PC + 2) }

/-- `loadDelayTimer` (Fx15). -/
def loadDelayTimer (s : State) (op : Nat) : State :=
  { s with DT := getV s (opX op), PC := wordMod (s.PC + 2) }

/-- `loadSoundTimer` (Fx18). -/
def loadSoundTimer (s : State) (op : Nat) : State :=
  { s with ST := getV s (opX op), PC := wordMod (s.PC + 2) }

/-- `incrementIndex` (Fx1E): `I += uint16(V[x])`. -/
def incrementIndex (s : State) (op : Nat) : State :=
  { s with I := wordMod (s.I + getV s (opX op)), PC := wordMod (s.PC + 2) }

/-- `loadIndexFromSprite` (Fx29): `I = uint16(5 * V[x])`, where the product
is computed in uint8 and therefore wraps modulo 256 before widening. -/
def loadIndexFromSprite (s : State) (op : Nat) : State :=
  { s with I := byteMod (5 * getV s (opX op)), PC := wordMod (s.PC + 2) }

/-- `loadMemoryFromBCD` (Fx33): `Memory[I] = V[x]/100; Memory[I+1] =
(V[x]%100)/10; Memory[I+2] = V[x]%10`, each access bound-checked, PC += 2. -/
def loadMemoryFromBCD (s : State) (op : Nat) : ExecResult :=
  let vx := getV s (opX op)
  match memWrite s s.I (vx / 100) with
  | .aborted m s1 => .aborted m s1
  | .ok s1 =>
    match memWrite s1 (wordMod (s1.I + 1)) (vx % 100 / 10) with
    | .aborted m s2 => .aborted m s2
    | .ok s2 =>
      match memWrite s2 (wordMod (s2.I + 2)) (vx % 10) with
      | .aborted m s3 => .aborted m s3
      | .ok s3 => .ok { s3 with PC := wordMod (s3.PC + 2) }

/-- The loop of `loadMemoryFromRegisters` (Fx55): for each of the remaining
registers, `Memory[I] = V[n]; I++` (uint16 wrap, bound-checked store). -/
def storeRegsLoop (s : State) : Nat → Nat → ExecResult
  | _, 0 => .ok s
  | n, rem + 1 =>
    match memWrite s s.I (getV s n) with
    | .aborted m s1 => .aborted m s1
    | .ok s1 => storeRegsLoop { s1 with I := wordMod (s1.I + 1) } (n + 1) rem

/-- `loadMemoryFromRegisters` (Fx55): run the store loop for n = 0..x, then
PC += 2. -/
def loadMemoryFromRegisters (s : State) (op : Nat) : ExecResult :=
  match storeRegsLoop s 0 (opX op + 1) with
  | .aborted m s1 => .aborted m s1
  | .ok s1 => .ok { s1 with PC := wordMod (s1.PC + 2) }

/-- The loop of `loadRegistersFromMemory` (Fx65): for each of the remaining
registers, `V[n] = Memory[I]; I++` (bound-checked load). -/
def loadRegsLoop (s : State) : Nat → Nat → ExecResult
  | _, 0 => .ok s
  | n, rem + 1 =>
    if s.I < 4096 then
      loadRegsLoop { setV s n (s.Memory.getD s.I 0) with I := wordMod (s.I + 1) } (n + 1) rem
    else .aborted (oobMsg s.I 4096) s

/-- `loadRegistersFromMemory` (Fx65): run the load loop for n = 0..x, then
PC += 2. -/
def loadRegistersFromMemory (s : State) (op : Nat) : ExecResult :=
  match loadRegsLoop s 0 (opX op + 1) with
  | .aborted m s1 => .aborted m s1
  | .ok s1 => .ok { s1 with PC := wordMod (s1.PC + 2) }

/-- `waitForKeyPress` (Fx0A): latch the wait-key state with target `x`; PC
is not advanced. -/
def waitForKeyPress (e : Emulator) (op : Nat) : Emulator :=
  { e with waitKey := true, waitKeyRegister := opX op }

/-- Lowercase hex digit for a nibble, as printed by Go `fmt %x`: `0`-`9` for
values below ten, `a`-`f` otherwise. -/
def hexDigit (n : Nat) : Char :=
  if n < 10 then Char.ofNat (48 + n) else Char.ofNat (87 + n)

/-- Go `fmt %x` of a nibble. -/
def hex1 (n : Nat) : String := String.mk [hexDigit (n % 16)]

/-- Go `fmt %02x`. -/
def hex2 (n : Nat) : String := String.mk [hexDigit (n / 16 % 16), hexDigit (n % 16)]

/-- Go `fmt %03x`. -/
def hex3 (n : Nat) : String :=
  String.mk [hexDigit (n / 256 % 16), hexDigit (n / 16 % 16), hexDigit (n % 16)]

/-- Go `fmt %04x`. -/
def hex4 (n : Nat) : String :=
  String.mk [hexDigit (n / 4096 % 16), hexDigit (n / 256 % 16),
             hexDigit (n / 16 % 16), hexDigit (n % 16)]

/-- Go `fmt %x` of a 16-bit value: lowercase hex without leading zeros. -/
def hexNoPad (n : Nat) : String :=
  if n < 16 then hex1 n
  else if n < 256 then hex2 n
  else if n < 4096 then hex3 n
  else hex4 n

/-- The panic message `fmt.Sprintf("invalid opcode: %x", op)`. -/
def invalidOpcodeMsg (op : Nat) : String := "invalid opcode: " ++ hexNoPad op

/-- Wrap an `ExecResult` of a state handler back into the emulator. -/
def liftExec (e : Emulator) : ExecResult → StepResult
  | .ok s => .cont { e with state := s }
  | .aborted m s => .aborted m { e with state := s }

/-- `func (e *Emulator) Step() bool`: fetch, decode and execute one
instruction. `stop` models `return false` (the HALT case); every
unrecognized sub-opcode is a `panic("invalid opcode: …")`, modelled by
`aborted` with the state unchanged since the fetch. The host RNG sample `r`
feeds the Cxkk handler. -/
def Step (e : Emulator) (r : Nat) : StepResult :=
  match Instruction e.state with
  | .error m => .aborted m e
  | .ok op =>
    let fam := op &&& MaskFamily
    if fam = 0x0000 then
      if op &&& MaskKK = 0x00e0 then .cont { e with state := clearDisplay e.state }
      else if op &&& MaskKK = 0x00ee then liftExec e (functionReturn e.state)
      else if op &&& MaskKK = 0x0000 then .stop e
      else .aborted (invalidOpcodeMsg op) e
    else if fam = 0x1000 then .cont { e with state := jump e.state op }
    else if fam = 0x2000 then liftExec e (functionCall e.state op)
    else if fam = 0x3000 then .cont { e with state := skipIfConstantEqual e.state op }
    else if fam = 0x4000 then .cont { e with state := skipIfConstantNotEqual e.state op }
    else if fam = 0x5000 then .cont { e with state := skipIfRegisterEqual e.state op }
    else if fam = 0x6000 then .cont { e with state := loadRegisterFromConstant e.state op }
    else if fam = 0x7000 then .cont { e with state := incrementRegister e.state op }
    else if fam = 0x8000 then
      if op &&& MaskN = 0x0000 then .cont { e with state := loadRegisterFromRegister e.state op }
      else if op &&& MaskN = 0x0001 then .cont { e with state := bitwiseOr e.state op }
      else if op &&& MaskN = 0x0002 then .cont { e with state := bitwiseAnd e.state op }
      else if op &&& MaskN = 0x0003 then .cont { e with state := bitwiseXor e.state op }
      else if op &&& MaskN = 0x0004 then .cont { e with state := addWithCarry e.state op }
      else if op &&& MaskN = 0x0005 then .cont { e with state := subtractRightWithBorrow e.state op }
      else if op &&& MaskN = 0x0006 then .cont { e with state := shiftRight e.state op }
      else if op &&& MaskN = 0x0007 then .cont { e with state := subtractLeftWithBorrow e.state op }
      else if op &&& MaskN = 0x000e then .cont { e with state := shiftLeft e.state op }
      else .aborted (invalidOpcodeMsg op) e
    else if fam = 0x9000 then .cont { e with state := skipIfRegisterNotEqual e.state op }
    else if fam = 0xa000 then .cont { e with state := loadIndex e.state op }
    else if fam = 0xb000 then .cont { e with state := jumpRelative e.state op }
    else if fam = 0xc000 then .cont { e with state := generateRandomNumber e.state op r }
    else if fam = 0xd000 then liftExec e (draw e.state op)
    else if fam = 0xe000 then
      if op &&& MaskKK = 0x009e then .cont { e with state := skipIfKeyPressed e.state op }
      else if op &&& MaskKK = 0x00a1 then .cont { e with state := skipIfKeyNotPressed e.state op }
      else .aborted (invalidOpcodeMsg op) e
    else
      if op &&& MaskKK = 0x0007 then .cont { e with state := loadRegisterFromDelayTimer e.state op }
      else if op &&& MaskKK = 0x000a then .cont (waitForKeyPress e op)
      else if op &&& MaskKK = 0x0015 then .cont { e with state := loadDelayTimer e.state op }
      else if op &&& MaskKK = 0x0018 then .cont { e with state := loadSoundTimer e.state op }
      else if op &&& MaskKK = 0x001e then .cont { e with state := incrementIndex e.state op }
      else if op &&& MaskKK = 0x0029 then .cont { e with state := loadIndexFromSprite e.state op }
      else if op &&& MaskKK = 0x0033 then liftExec e (loadMemoryFromBCD e.state op)
      else if op &&& MaskKK = 0x0055 then liftExec e (loadMemoryFromRegisters e.state op)
      else if op &&& MaskKK = 0x0065 then liftExec e (loadRegistersFromMemory e.state op)
      else .aborted (invalidOpcodeMsg op) e

/-- `func (e *Emulator) KeyDown(key uint8)`. -/
def KeyDown (e : Emulator) (key : Nat) : Emulator :=
  { e with state := { e.state with Keys := e.state.Keys.set (key &&& 0xf) true } }

/-- `func (e *Emulator) KeyUp(key uint8)`: clear `Keys[key & 0xf]`; when the
wait-key latch is set, store the full byte `key` into `V[waitKeyRegister]`,
clear the latch and advance PC by 2. -/
def KeyUp (e : Emulator) (key : Nat) : Emulator :=
  let s1 := { e.state with Keys := e.state.Keys.set (key &&& 0xf) false }
  if e.waitKey then
    { e with state := { setV s1 e.waitKeyRegister key with PC := wordMod (s1.PC + 2) },
             waitKey := false }
  else
    { e with state := s1 }

/-- `func (i Instruction) String() string` from the `trace` package: the
disassembler. Each Go `switch` level that falls through without returning
reaches the final `fmt.Sprintf("unknown (%04x)", op)`. -/
def instructionString (op : Nat) : String :=
  let x := "v" ++ hex1 ((op &&& MaskX) >>> ShiftX)
  let y := "v" ++ hex1 ((op &&& MaskY) >>> ShiftY)
  let n := hex3 (op &&& MaskNNN)
  let k := hex2 (op &&& MaskKK)
  let b := hex1 (op &&& MaskN)
  let unknown := "unknown (" ++ hex4 op ++ ")"
  let fam := op &&& MaskFamily
  if fam = 0x0000 then
    if op &&& MaskKK = 0x00e0 then "cls"
    else if op &&& MaskKK = 0x00ee then "ret"
    else unknown
  else if fam = 0x1000 then "jp " ++ n
  else if fam = 0x2000 then "call " ++ n
  else if fam = 0x3000 then "se " ++ x ++ ", " ++ k
  else if fam = 0x4000 then "sne " ++ x ++ ", " ++ k
  else if fam = 0x5000 then "se " ++ x ++ ", " ++ y
  else if fam = 0x6000 then "ld " ++ x ++ ", " ++ k
  else if fam = 0x7000 then "add " ++ x ++ ", " ++ k
  else if fam = 0x8000 then
    if op &&& MaskN = 0x0000 then "ld " ++ x ++ ", " ++ y
    else if op &&& MaskN = 0x0001 then "or " ++ x ++ ", " ++ y
    else if op &&& MaskN = 0x0002 then "and " ++ x ++ ", " ++ y
    else if op &&& MaskN = 0x0003 then "xor " ++ x ++ ", " ++ y
    else if op &&& MaskN = 0x0004 then "add " ++ x ++ ", " ++ y
    else if op &&& MaskN = 0x0005 then "sub " ++ x ++ ", " ++ y
    else if op &&& MaskN = 0x0006 then "shr " ++ x ++ ", " ++ y
    else if op &&& MaskN = 0x0007 then "subn " ++ x ++ ", " ++ y
    else if op &&& MaskN = 0x000e then "shl " ++ x ++ ", " ++ y
    else unknown
  else if fam = 0x9000 then "sne " ++ x ++ ", " ++ y
  else if fam = 0xa000 then "ld i, " ++ n
  else if fam = 0xb000 then "jp v0, " ++ n
  else if fam = 0xc000 then "rnd " ++ x ++ ", " ++ k
  else if fam = 0xd000 then "draw " ++ x ++ ", " ++ y ++ ", " ++ b
  else if fam = 0xe000 then
    if op &&& MaskKK = 0x009e then "skp " ++ x
    else if op &&& MaskKK = 0x00a1 then "sknp " ++ x
    else unknown
  else
    if op &&& MaskKK = 0x0007 then "ld " ++ x ++ ", dt"
    else if op &&& MaskKK = 0x000a then "ld " ++ x ++ ", k"
    else if op &&& MaskKK = 0x0015 then "ld dt, " ++ x
    else if op &&& MaskKK = 0x0018 then "ld st, " ++ x
    else if op &&& MaskKK = 0x001e then "add i, " ++ x
    else if op &&& MaskKK = 0x0029 then "ld f, " ++ x
    else if op &&& MaskKK = 0x0033 then "ld b, " ++ x
    else if op &&& MaskKK = 0x0055 then "ld [i], " ++ x
    else if op &&& MaskKK = 0x0065 then "ld " ++ x ++ ", [i]"
    else unknown

/-- The built-in font table (80 bytes). -/
def fonts : List Nat :=
  [0xf0, 0x90, 0x90, 0x90, 0xf0,
   0x20, 0x60, 0x20, 0x20, 0x70,
   0xf0, 0x10, 0xf0, 0x80, 0xf0,
   0xf0, 0x10, 0xf0, 0x10, 0xf0,
   0x90, 0x90, 0xf0, 0x10, 0x10,
   0xf0, 0x80, 0xf0, 0x10, 0xf0,
   0xf0, 0x80, 0xf0, 0x90, 0xf0,
   0xf0, 0x10, 0x20, 0x40, 0x40,
   0xf0, 0x90, 0xf0, 0x90, 0xf0,
   0xf0, 0x90, 0xf0, 0x10, 0xf0,
   0xf0, 0x90, 0xf0, 0x90, 0x90,
   0xe0, 0x90, 0xe0, 0x90, 0xe0,
   0xf0, 0x80, 0x80, 0x80, 0xf0,
   0xe0, 0x90, 0x90, 0x90, 0xe0,
   0xf0, 0x80, 0xf0, 0x80, 0xf0,
   0xf0, 0x80, 0xf0, 0x80, 0x80]

/-- `func New() *Emulator`: fonts at the base of a zeroed memory, PC at
0x200, everything else zero. -/
def New : Emulator :=
  { state :=
      { V := List.replicate 16 0
        I := 0
        SP := 0
        DT := 0
        ST := 0
        PC := 0x200
        Stack := List.replicate 16 0
        Memory := fonts ++ List.replicate 4016 0
        Display := List.replicate 32 (List.replicate 64 0)
        Keys := List.replicate 16 false }
    waitKey := false
    waitKeyRegister := 0 }

/-- `func (e *Emulator) Load(program []uint8)`: Go `copy` into
`Memory[0x200:]` transfers `min (len program) 3584` bytes and reports no
error; a longer program is silently truncated. -/
def Load (e : Emulator) (program : List Nat) : Emulator :=
  let m := min program.length 3584
  { e with state :=
      { e.state with Memory :=
          e.state.Memory.take 512 ++ program.take m ++ e.state.Memory.drop (512 + m) } }

/-! ### Generic list and bit-mask lemmas -/

theorem getD_set_self {α : Type} (l : List α) (i : Nat) (v d : α) (h : i < l.length) :
    (l.set i v).getD i d = v := by
  simp [List.getD, List.getElem?_set_eq_of_lt, h]

theorem getD_set_ne {α : Type} (l : List α) (i j : Nat) (v d : α) (h : i ≠ j) :
    (l.set i v).getD j d = l.getD j d := by
  simp [List.getD, List.getElem?_set_ne h]

theorem land_shift (n m k : Nat) : n &&& (m <<< k) = ((n >>> k) &&& m) <<< k := by
  apply Nat.eq_of_testBit_eq
  intro i
  rcases Nat.lt_or_ge i k with h | h
  · simp [Nat.testBit_land, Nat.testBit_shiftLeft, Nat.not_le.mpr h]
  · simp [Nat.testBit_land, Nat.testBit_shiftLeft, h, Nat.testBit_shiftRight,
      Nat.add_sub_cancel' h]

theorem maskFamily_eq (op : Nat) : op &&& 0xf000 = op / 4096 % 16 * 4096 := by
  have h3 : (0xf000 : Nat) = (2 ^ 4 - 1) <<< 12 := by rfl
  rw [h3, land_shift, Nat.and_pow_two_sub_one_eq_mod, Nat.shiftLeft_eq,
    Nat.shiftRight_eq_div_pow]

theorem opX_eq (op : Nat) : opX op = op / 256 % 16 := by
  show (op &&& 0x0f00) >>> 8 = op / 256 % 16
  have h3 : (0x0f00 : Nat) = (2 ^ 4 - 1) <<< 8 := by rfl
  rw [h3, land_shift, Nat.and_pow_two_sub_one_eq_mod, Nat.shiftLeft_eq,
    Nat.shiftRight_eq_div_pow, Nat.shiftRight_eq_div_pow]
  exact Nat.mul_div_cancel _ (by norm_num)

theorem opY_eq (op : Nat) : opY op = op / 16 % 16 := by
  show (op &&& 0x00f0) >>> 4 = op / 16 % 16
  have h3 : (0x00f0 : Nat) = (2 ^ 4 - 1) <<< 4 := by rfl
  rw [h3, land_shift, Nat.and_pow_two_sub_one_eq_mod, Nat.shiftLeft_eq,
    Nat.shiftRight_eq_div_pow, Nat.shiftRight_eq_div_pow]
  exact Nat.mul_div_cancel _ (by norm_num)

theorem maskN_eq (op : Nat) : op &&& 0xf = op % 16 := by
  have h := Nat.and_pow_two_sub_one_eq_mod op 4
  norm_num at h
  exact h

theorem maskKK_eq (op : Nat) : op &&& 0xff = op % 256 := by
  have h := Nat.and_pow_two_sub_one_eq_mod op 8
  norm_num at h
  exact h

theorem maskNNN_eq (op : Nat) : op &&& 0xfff = op % 4096 := by
  have h := Nat.and_pow_two_sub_one_eq_mod op 12
  norm_num at h
  exact h

theorem opX_lt (op : Nat) : opX op < 16 := by
  rw [opX_eq]
  exact Nat.mod_lt _ (by norm_num)

theorem opY_lt (op : Nat) : opY op < 16 := by
  rw [opY_eq]
  exact Nat.mod_lt _ (by norm_num)

/-! ### C1: ALU flag-register write ordering -/

/-- C1. For every 8xy4/8xy5/8xy6/8xy7/8xyE instruction, for all register
indices x and y (including 0xF), the flag (carry, no-borrow, or shifted-out
bit) is computed from the pre-instruction register values and committed to
VF after Vx is written: the final VF always equals the computed flag (so
when x = 0xF it is the flag, not the arithmetic result), and when x ≠ 0xF
the destination holds the arithmetic result. For 8xy1/8xy2/8xy3 the final
VF is 0 regardless of its prior value. -/
theorem C1_alu_flag_ordering (e : Emulator) (r op : Nat)
    (hV : e.state.V.length = 16)
    (hI : Instruction e.state = Except.ok op)
    (hfam : op &&& 0xf000 = 0x8000) :
    (op &&& 0xf = 1 ∨ op &&& 0xf = 2 ∨ op &&& 0xf = 3 →
      ∃ e2, Step e r = .cont e2 ∧ getV e2.state 0xf = 0) ∧
    (op &&& 0xf = 4 →
      ∃ e2, Step e r = .cont e2 ∧
        getV e2.state 0xf =
          (if getV e.state (opX op) > 0xff - getV e.state (opY op) then 1 else 0) ∧
        (opX op ≠ 0xf →
          getV e2.state (opX op) =
            (getV e.state (opX op) + getV e.state (opY op)) % 256)) ∧
    (op &&& 0xf = 5 →
      ∃ e2, Step e r = .cont e2 ∧
        getV e2.state 0xf =
          (if getV e.state (opX op) ≥ getV e.state (opY op) then 1 else 0) ∧
        (opX op ≠ 0xf →
          getV e2.state (opX op) =
            (getV e.state (opX op) + 256 - getV e.state (opY op) % 256) % 256)) ∧
    (op &&& 0xf = 6 →
      ∃ e2, Step e r = .cont e2 ∧
        getV e2.state 0xf =
          (if getV e.state (opY op) &&& 0x01 ≠ 0 then 1 else 0) ∧
        (opX op ≠ 0xf →
          getV e2.state (opX op) = getV e.state (opY op) >>> 1)) ∧
    (op &&& 0xf = 7 →
      ∃ e2, Step e r = .cont e2 ∧
        getV e2.state 0xf =
          (if getV e.state (opY op) ≥ getV e.state (opX op) then 1 else 0) ∧
        (opX op ≠ 0xf →
          getV e2.state (opX op) =
            (getV e.state (opY op) + 256 - getV e.state (opX op) % 256) % 256)) ∧
    (op &&& 0xf = 0xe →
      ∃ e2, Step e r = .cont e2 ∧
        getV e2.state 0xf =
          (if getV e.state (opY op) &&& 0x80 ≠ 0 then 1 else 0) ∧
        (opX op ≠ 0xf →
          getV e2.state (opX op) = getV e.state (opY op) <<< 1 % 256)) := by
  have hxlen : ∀ v : Nat, (e.state.V.set (opX op) v).length = 16 := by
    simp [hV]
  refine ⟨?_, ?_, ?_, ?_, ?_, ?_⟩
  · rintro (h | h | h) <;>
      (unfold Step; rw [hI]; simp only [MaskFamily, MaskN, hfam, h]; norm_num)
    · unfold bitwiseOr setV
      rw [getV, getD_set_self]
      rw [List.length_set, hV]
      norm_num
    · unfold bitwiseAnd setV
      rw [getV, getD_set_self]
      rw [List.length_set, hV]
      norm_num
    · unfold bitwiseXor setV
      rw [getV, getD_set_self]
      rw [List.length_set, hV]
      norm_num
  · intro h
    unfold Step
    rw [hI]
    simp only [MaskFamily, MaskN, hfam, h]
    norm_num
    refine ⟨?_, ?_⟩
    · unfold addWithCarry setV byteMod
      rw [getV, getD_set_self]
      simp [hV]
    · intro hx
      unfold addWithCarry setV byteMod
      rw [getV, getD_set_ne _ _ _ _ _ (by omega), getD_set_self]
      simp [hV, opX_lt]
  · intro h
    unfold Step
    rw [hI]
    simp only [MaskFamily, MaskN, hfam, h]
    norm_num
    refine ⟨?_, ?_⟩
    · unfold subtractRightWithBorrow setV byteMod
      rw [getV, getD_set_self]
      simp [hV]
    · intro hx
      unfold subtractRightWithBorrow setV byteMod
      rw [getV, getD_set_ne _ _ _ _ _ (by omega), getD_set_self]
      simp [hV, opX_lt]
  · intro h
    unfold Step
    rw [hI]
    simp only [MaskFamily, MaskN, hfam, h]
    norm_num
    unfold shiftRight
    dsimp only
    have hyx : getV (setV e.state (opX op) (getV e.state (opY op))) (opX op) =
        getV e.state (opY op) := by
      unfold setV
      rw [getV, getD_set_self]
      simp [hV, opX_lt]
    rw [hyx]
    refine ⟨?_, ?_⟩
    · unfold setV
      rw [getV, getD_set_self]
      · simp only [Nat.and_one_is_mod]
        by_cases hc : getV e.state (opY op) % 2 = 0
        · simp [hc]
        · have h1 : getV e.state (opY op) % 2 = 1 := by omega
          simp [h1]
      · simp [hV]
    · intro hx
      unfold setV
      rw [getV, getD_set_ne _ _ _ _ _ (by omega), getD_set_self]
      simp [hV, opX_lt]
  · intro h
    unfold Step
    rw [hI]
    simp only [MaskFamily, MaskN, hfam, h]
    norm_num
    refine ⟨?_, ?_⟩
    · unfold subtractLeftWithBorrow setV byteMod
      rw [getV, getD_set_self]
      simp [hV]
    · intro hx
      unfold subtractLeftWithBorrow setV byteMod
      rw [getV, getD_set_ne _ _ _ _ _ (by omega), getD_set_self]
      simp [hV, opX_lt]
  · intro h
    unfold Step
    rw [hI]
    simp only [MaskFamily, MaskN, hfam, h]
    norm_num
    unfold shiftLeft
    dsimp only
    have hyx : getV (setV e.state (opX op) (getV e.state (opY op))) (opX op) =
        getV e.state (opY op) := by
      unfold setV
      rw [getV, getD_set_self]
      simp [hV, opX_lt]
    rw [hyx]
    refine ⟨?_, ?_⟩
    · unfold setV
      rw [getV, getD_set_self]
      · by_cases hc : getV e.state (opY op) &&& 128 = 0 <;> simp [hc]
      · simp [hV]
    · intro hx
      unfold setV byteMod
      rw [getV, getD_set_ne _ _ _ _ _ (by omega), getD_set_self]
      simp [hV, opX_lt]

/-- A concrete machine for exercising C1: V1 = 0xff, V2 = 0x0f, and the
instruction 8124 (ADD V1, V2) at PC = 0x200. -/
def C1w : Emulator :=
  let b := Load New [0x81, 0x24]
  { b with state := { b.state with
      V := [0, 0xff, 0x0f, 0, 0, 0, 0, 0, 0, 0, 0, 0, 0, 0, 0, 0] } }

set_option maxRecDepth 100000 in
/-- Witness for C1 at the concrete machine `C1w` and opcode 0x8124. -/
theorem C1_alu_flag_ordering_witness :
    ∃ e2, Step C1w 0 = .cont e2 ∧
      getV e2.state 0xf =
        (if getV C1w.state (opX 0x8124) > 0xff - getV C1w.state (opY 0x8124) then 1 else 0) ∧
      (opX 0x8124 ≠ 0xf →
        getV e2.state (opX 0x8124) =
          (getV C1w.state (opX 0x8124) + getV C1w.state (opY 0x8124)) % 256) :=
  (C1_alu_flag_ordering C1w 0 0x8124 (by decide) (by rfl) (by decide)).2.1 (by decide)

/-! ### Result projections used by concrete witnesses and counterexamples -/

/-- Kind of a `Step` result: 0 for `cont` (returned true), 1 for `stop`
(returned false), 2 for `aborted` (panicked). -/
def resultKind : StepResult → Nat
  | .cont _ => 0
  | .stop _ => 1
  | .aborted _ _ => 2

/-- The panic message of a `Step` result (empty for normal returns). -/
def resultMsg : StepResult → String
  | .cont _ => ""
  | .stop _ => ""
  | .aborted m _ => m

/-- The machine state carried by a `Step` result. -/
def resultState : StepResult → State
  | .cont e => e.state
  | .stop e => e.state
  | .aborted _ e => e.state

/-! ### C7: Fx29 font address -/

/-- C7 (amended). Executing Fx29 sets I to `(5 · Vx) mod 256`: the product
is a uint8 multiplication that wraps modulo 256 and the low nibble of Vx is
not isolated. Whenever Vx < 16 this agrees with the claimed `5 · (Vx & 0xF)`. -/
theorem C7_font_address (e : Emulator) (r op : Nat)
    (hI : Instruction e.state = Except.ok op)
    (hfam : op &&& 0xf000 = 0xf000)
    (hkk : op &&& 0xff = 0x29) :
    ∃ e2, Step e r = .cont e2 ∧
      e2.state.I = 5 * getV e.state (opX op) % 256 ∧
      (getV e.state (opX op) < 16 →
        e2.state.I = 5 * (getV e.state (opX op) &&& 0xf)) ∧
      e2.state.PC = wordMod (e.state.PC + 2) := by
  unfold Step
  rw [hI]
  simp only [MaskFamily, MaskKK, hfam, hkk]
  norm_num
  unfold loadIndexFromSprite byteMod
  refine ⟨rfl, ?_, rfl⟩
  intro hlt
  rw [maskN_eq]
  have h1 : getV e.state (opX op) % 16 = getV e.state (opX op) := Nat.mod_eq_of_lt hlt
  rw [h1]
  dsimp only
  omega

/-- A machine with V0 = 0x10 about to execute F029 (LD F, V0). -/
def C7cx : Emulator :=
  let b := Load New [0xf0, 0x29]
  { b with state := { b.state with
      V := [0x10, 0, 0, 0, 0, 0, 0, 0, 0, 0, 0, 0, 0, 0, 0, 0] } }

/-- Counterexample for C7 as claimed: with Vx = 0x10 the code sets
I = (5·0x10) mod 256 = 80, while the claimed `5 · (Vx & 0xF)` is 0. -/
theorem C7_font_address_cx :
    (resultState (Step C7cx 0)).I = 80 ∧
    5 * (getV C7cx.state (opX 0xf029) &&& 0xf) = 0 ∧
    (80 : Nat) ≠ 0 := ⟨rfl, rfl, by decide⟩

/-- Witness for C7 (amended) at a concrete machine with V0 = 0x10. -/
theorem C7_font_address_witness :
    ∃ e2, Step C7cx 0 = .cont e2 ∧
      e2.state.I = 5 * getV C7cx.state (opX 0xf029) % 256 ∧
      (getV C7cx.state (opX 0xf029) < 16 →
        e2.state.I = 5 * (getV C7cx.state (opX 0xf029) &&& 0xf)) ∧
      e2.state.PC = wordMod (C7cx.state.PC + 2) :=
  C7_font_address C7cx 0 0xf029 (by rfl) (by decide) (by decide)

/-! ### C10: stack overflow and underflow -/

/-- C10. The stack operations carry no guard: a CALL (2nnn) from SP = 16
attempts the out-of-range write `Stack[16]` and aborts with the runtime
bounds panic, leaving the state unchanged; a RET (00EE) from SP = 0 wraps
the uint8 SP to 255, attempts the out-of-range read `Stack[255]`, and
aborts with the bounds panic, the wrapped SP remaining in the state.
Neither wraps silently nor returns an error result. -/
theorem C10_stack_no_guard (e : Emulator) (r op : Nat)
    (hI : Instruction e.state = Except.ok op) :
    (op &&& 0xf000 = 0x2000 → e.state.SP = 16 →
      Step e r = .aborted (oobMsg 16 16) e) ∧
    (op &&& 0xf000 = 0 → op &&& 0xff = 0xee → e.state.SP = 0 →
      Step e r = .aborted (oobMsg 255 16)
        { e with state := { e.state with SP := 255 } }) := by
  constructor
  · intro hfam hsp
    unfold Step
    rw [hI]
    simp only [MaskFamily, hfam]
    norm_num
    unfold functionCall liftExec
    rw [hsp]
    norm_num
  · intro hfam hkk hsp
    unfold Step
    rw [hI]
    simp only [MaskFamily, MaskKK, hfam, hkk]
    norm_num
    unfold functionReturn liftExec byteMod
    rw [hsp]
    norm_num

/-- A machine with a full stack (SP = 16) about to execute CALL 0x200. -/
def C10w : Emulator :=
  let b := Load New [0x22, 0x00]
  { b with state := { b.state with SP := 16 } }

/-- Witness for C10: the CALL overflow aborts with the bounds message. -/
theorem C10_stack_no_guard_witness :
    Step C10w 0 = .aborted (oobMsg 16 16) C10w :=
  (C10_stack_no_guard C10w 0 0x2200 (by rfl)).1 (by decide) (by decide)

/-! ### C5: HALT decoding of 0NNN -/

/-- C5 (amended). Within family 0, only opcodes whose low byte is 0x00
(0x0000, 0x0100, …, 0x0F00) are HALT: `Step` returns stopped (`false`
without a panic) with the machine state untouched, and any subsequent
`Step` from the same state returns the same result. A 0NNN opcode whose
low byte is not 0x00, 0xE0, or 0xEE is not a HALT alias: it panics as an
invalid opcode. -/
theorem C5_halt_decoding (e : Emulator) (r op : Nat)
    (hI : Instruction e.state = Except.ok op)
    (hfam : op &&& 0xf000 = 0) :
    (op &&& 0xff = 0 →
      Step e r = .stop e ∧ ∀ r2, Step e r2 = .stop e) ∧
    (op &&& 0xff ≠ 0xe0 → op &&& 0xff ≠ 0xee → op &&& 0xff ≠ 0 →
      Step e r = .aborted (invalidOpcodeMsg op) e) := by
  constructor
  · intro hkk
    have hstep : ∀ r2 : Nat, Step e r2 = .stop e := by
      intro r2
      unfold Step
      rw [hI]
      simp only [MaskFamily, MaskKK, hfam, hkk]
      norm_num
    exact ⟨hstep r, hstep⟩
  · intro h1 h2 h3
    unfold Step
    rw [hI]
    simp only [MaskFamily, MaskKK, hfam]
    norm_num
    rw [if_neg h1, if_neg h2, if_neg h3]

/-- A machine about to execute the legacy 0NNN opcode 0x0001. -/
def C5cx : Emulator := Load New [0x00, 0x01]

/-- Counterexample for C5 as claimed: 0x0001 is of the form 0NNN and is
neither 00E0 nor 00EE, yet `Step` does not return stopped — it panics with
`invalid opcode: 1` (result kind 2 is a panic; a stop would be kind 1). -/
theorem C5_halt_decoding_cx :
    resultKind (Step C5cx 0) = 2 ∧
    resultMsg (Step C5cx 0) = "invalid opcode: 1" ∧
    (2 : Nat) ≠ 1 := ⟨rfl, rfl, by decide⟩

/-- A machine about to execute the halting opcode 0x0100. -/
def C5w : Emulator := Load New [0x01, 0x00]

/-- Witness for C5 (amended): 0x0100 halts with the state untouched and
stepping again gives the same result. -/
theorem C5_halt_decoding_witness :
    Step C5w 0 = .stop C5w ∧ ∀ r2, Step C5w r2 = .stop C5w :=
  (C5_halt_decoding C5w 0 0x0100 (by rfl) (by decide)).1 (by decide)

/-! ### C4: invalid sub-opcodes -/

/-- C4 (amended). For every opcode whose family is recognized but whose
sub-opcode is not (8xyn with n outside 0–7 and E; Exkk with kk neither 9E
nor A1; Fxkk with an unrecognized kk; 0NNN with a low byte other than 00,
E0, EE), `Step` does not return an error value: it panics with
`invalid opcode: %x`. The machine state as of the fetch is preserved and
PC is not advanced. -/
theorem C4_invalid_opcode (e : Emulator) (r op : Nat)
    (hI : Instruction e.state = Except.ok op) :
    (op &&& 0xf000 = 0x8000 →
      op &&& 0xf ≠ 0 → op &&& 0xf ≠ 1 → op &&& 0xf ≠ 2 → op &&& 0xf ≠ 3 →
      op &&& 0xf ≠ 4 → op &&& 0xf ≠ 5 → op &&& 0xf ≠ 6 → op &&& 0xf ≠ 7 →
      op &&& 0xf ≠ 0xe →
      Step e r = .aborted (invalidOpcodeMsg op) e) ∧
    (op &&& 0xf000 = 0xe000 →
      op &&& 0xff ≠ 0x9e → op &&& 0xff ≠ 0xa1 →
      Step e r = .aborted (invalidOpcodeMsg op) e) ∧
    (op &&& 0xf000 = 0xf000 →
      op &&& 0xff ≠ 0x07 → op &&& 0xff ≠ 0x0a → op &&& 0xff ≠ 0x15 →
      op &&& 0xff ≠ 0x18 → op &&& 0xff ≠ 0x1e → op &&& 0xff ≠ 0x29 →
      op &&& 0xff ≠ 0x33 → op &&& 0xff ≠ 0x55 → op &&& 0xff ≠ 0x65 →
      Step e r = .aborted (invalidOpcodeMsg op) e) ∧
    (op &&& 0xf000 = 0 →
      op &&& 0xff ≠ 0xe0 → op &&& 0xff ≠ 0xee → op &&& 0xff ≠ 0 →
      Step e r = .aborted (invalidOpcodeMsg op) e) := by
  refine ⟨?_, ?_, ?_, ?_⟩
  · intro hfam h0 h1 h2 h3 h4 h5 h6 h7 he
    unfold Step
    rw [hI]
    simp only [MaskFamily, MaskN, hfam]
    norm_num
    rw [if_neg h0, if_neg h1, if_neg h2, if_neg h3, if_neg h4, if_neg h5,
      if_neg h6, if_neg h7, if_neg he]
  · intro hfam h1 h2
    unfold Step
    rw [hI]
    simp only [MaskFamily, MaskKK, hfam]
    norm_num
    rw [if_neg h1, if_neg h2]
  · intro hfam h1 h2 h3 h4 h5 h6 h7 h8 h9
    unfold Step
    rw [hI]
    simp only [MaskFamily, MaskKK, hfam]
    norm_num
    rw [if_neg h1, if_neg h2, if_neg h3, if_neg h4, if_neg h5, if_neg h6,
      if_neg h7, if_neg h8, if_neg h9]
  · intro hfam h1 h2 h3
    unfold Step
    rw [hI]
    simp only [MaskFamily, MaskKK, hfam]
    norm_num
    rw [if_neg h1, if_neg h2, if_neg h3]

/-- A machine about to execute the invalid ALU opcode 0x8009. -/
def C4cx : Emulator := Load New [0x80, 0x09]

/-- Counterexample for C4 as claimed: on 0x8009 `Step` does not return
`(false, InvalidOpcode{op})` — it panics (result kind 2; a false-return
would be kind 1). The state as of the fetch is preserved. -/
theorem C4_invalid_opcode_cx :
    resultKind (Step C4cx 0) = 2 ∧
    resultMsg (Step C4cx 0) = "invalid opcode: 8009" ∧
    resultState (Step C4cx 0) = C4cx.state ∧
    (2 : Nat) ≠ 1 := ⟨rfl, rfl, rfl, by decide⟩

/-- Witness for C4 (amended) at the concrete machine `C4cx`. -/
theorem C4_invalid_opcode_witness :
    Step C4cx 0 = .aborted (invalidOpcodeMsg 0x8009) C4cx :=
  (C4_invalid_opcode C4cx 0 0x8009 (by rfl)).1 (by decide) (by decide)
    (by decide) (by decide) (by decide) (by decide) (by decide) (by decide)
    (by decide) (by decide)

/-! ### C8: Load -/

theorem getD_append_left {α : Type} (l t : List α) (i : Nat) (d : α) (h : i < l.length) :
    (l ++ t).getD i d = l.getD i d := by
  simp [List.getD, List.getElem?_append_left h]

theorem getD_append_right {α : Type} (l t : List α) (i : Nat) (d : α) (h : l.length ≤ i) :
    (l ++ t).getD i d = t.getD (i - l.length) d := by
  simp [List.getD, List.getElem?_append_right h]

theorem getD_take {α : Type} (l : List α) (n i : Nat) (d : α) (h : i < n) :
    (l.take n).getD i d = l.getD i d := by
  simp [List.getD, List.getElem?_take_of_lt h]

theorem getD_drop {α : Type} (l : List α) (n i : Nat) (d : α) :
    (l.drop n).getD i d = l.getD (n + i) d := by
  simp [List.getD, List.getElem?_drop]

/-- C8 (amended). `Load` never reports an error: Go `copy` transfers
`min (len program) 3584` bytes into memory starting at 0x200 (truncating a
longer program silently and mutating the state), and every other component
of the state is untouched. For a program of at most 3584 bytes this is the
claimed copy of the whole program to 0x200. -/
theorem C8_load (e : Emulator) (p : List Nat) (i : Nat)
    (hMem : e.state.Memory.length = 4096) :
    (Load e p).state.V = e.state.V ∧
    (Load e p).state.PC = e.state.PC ∧
    (Load e p).state.I = e.state.I ∧
    (Load e p).state.SP = e.state.SP ∧
    (Load e p).waitKey = e.waitKey ∧
    (Load e p).state.Memory.length = 4096 ∧
    (i < 4096 →
      (Load e p).state.Memory.getD i 0 =
        if 512 ≤ i ∧ i < 512 + min p.length 3584 then p.getD (i - 512) 0
        else e.state.Memory.getD i 0) := by
  unfold Load
  dsimp only
  have hm : min p.length 3584 ≤ 3584 := Nat.min_le_right _ _
  have hmp : min p.length 3584 ≤ p.length := Nat.min_le_left _ _
  have h512 : (e.state.Memory.take 512).length = 512 := by
    rw [List.length_take, hMem]
    omega
  have htp : (p.take (min p.length 3584)).length = min p.length 3584 := by
    rw [List.length_take]
    omega
  have hAB : (e.state.Memory.take 512 ++ p.take (min p.length 3584)).length =
      512 + min p.length 3584 := by
    rw [List.length_append, h512, htp]
  refine ⟨rfl, rfl, rfl, rfl, rfl, ?_, ?_⟩
  · rw [List.length_append, hAB, List.length_drop, hMem]
    omega
  · intro hi
    rcases Nat.lt_or_ge i 512 with hc | hc
    · rw [getD_append_left _ _ _ _ (by omega), getD_append_left _ _ _ _ (by omega),
        getD_take _ _ _ _ hc, if_neg (by omega)]
    · rcases Nat.lt_or_ge i (512 + min p.length 3584) with hc2 | hc2
      · rw [getD_append_left _ _ _ _ (by omega), getD_append_right _ _ _ _ (by omega),
          h512, getD_take _ _ _ _ (by omega), if_pos (by omega)]
      · rw [getD_append_right _ _ _ _ (by omega), hAB, getD_drop, if_neg (by omega)]
        congr 1
        omega

/-- The oversized program of 3585 bytes used to refute C8 as claimed. -/
def C8p : List Nat := List.replicate 3585 0xff

/-- Counterexample for C8 as claimed: `Load` with a 3585-byte program (one
byte more than 4096 − 0x200) surfaces no error — its API has no error
result — and the machine state is changed, not left unchanged. -/
theorem C8_load_cx :
    (Load New C8p).state.Memory.getD 512 0 = 0xff ∧
    New.state.Memory.getD 512 0 = 0 ∧
    (Load New C8p).state ≠ New.state := by
  have hlen : C8p.length = 3585 := by
    unfold C8p
    rw [List.length_replicate]
  have hNm : New.state.Memory.length = 4096 := by
    rw [show New.state.Memory = fonts ++ List.replicate 4016 0 from rfl,
      List.length_append, List.length_replicate]
    rfl
  have hm : min C8p.length 3584 = 3584 := by
    rw [hlen]
    omega
  have h1 : (Load New C8p).state.Memory.getD 512 0 = 0xff := by
    unfold Load
    dsimp only
    rw [hm]
    have ht512 : (New.state.Memory.take 512).length = 512 := by
      rw [List.length_take, hNm]
      omega
    have ht3584 : (C8p.take 3584).length = 3584 := by
      rw [List.length_take, hlen]
      omega
    rw [getD_append_left _ _ _ _ (by rw [List.length_append, ht512, ht3584]; norm_num),
      getD_append_right _ _ _ _ (by rw [ht512]), ht512,
      getD_take _ _ _ _ (by norm_num)]
    rfl
  have h2 : New.state.Memory.getD 512 0 = 0 := by rfl
  refine ⟨h1, h2, fun h => ?_⟩
  have h3 := congrArg (fun s : State => s.Memory.getD 512 0) h
  simp only at h3
  rw [h1, h2] at h3
  exact absurd h3 (by decide)

/-- Witness for C8 (amended) at the concrete program `[0xab, 0xcd]` and
address 0x201. -/
theorem C8_load_witness :
    (Load New [0xab, 0xcd]).state.V = New.state.V ∧
    (Load New [0xab, 0xcd]).state.PC = New.state.PC ∧
    (Load New [0xab, 0xcd]).state.I = New.state.I ∧
    (Load New [0xab, 0xcd]).state.SP = New.state.SP ∧
    (Load New [0xab, 0xcd]).waitKey = New.waitKey ∧
    (Load New [0xab, 0xcd]).state.Memory.length = 4096 ∧
    (513 < 4096 →
      (Load New [0xab, 0xcd]).state.Memory.getD 513 0 =
        if 512 ≤ 513 ∧ 513 < 512 + min ([0xab, 0xcd] : List Nat).length 3584 then
          ([0xab, 0xcd] : List Nat).getD (513 - 512) 0
        else New.state.Memory.getD 513 0) :=
  C8_load New [0xab, 0xcd] 513 (by
    rw [show New.state.Memory = fonts ++ List.replicate 4016 0 from rfl,
      List.length_append, List.length_replicate]
    rfl)

/-! ### C3: wait-for-key (Fx0A) -/

/-- C3 (amended). Executing Fx0A latches the pending wait-key state with
target register x and does not advance PC (the machine state is untouched);
while pending, a further `Step` re-executes the same instruction and is a
complete no-op (it returns `cont` of the very same emulator); `KeyDown`
while pending does not resolve the wait; the wait is resolved by
`KeyUp(k)`, which clears `Keys[k & 0xF]`, stores the full byte k into
`V[target]` — the low-4-bit masking applies only to the `Keys` update, not
to the value stored in the register — clears the pending flag, and
advances PC by 2. -/
theorem C3_wait_key (e : Emulator) (r op key : Nat)
    (hV : e.state.V.length = 16)
    (hI : Instruction e.state = Except.ok op)
    (hfam : op &&& 0xf000 = 0xf000)
    (hkk : op &&& 0xff = 0x0a) :
    (Step e r = .cont { e with waitKey := true, waitKeyRegister := opX op }) ∧
    (e.waitKey = true → e.waitKeyRegister = opX op →
      ∀ r2, Step e r2 = .cont e) ∧
    (e.waitKey = true →
      (KeyDown e key).waitKey = true ∧
      (KeyDown e key).state.PC = e.state.PC ∧
      (KeyDown e key).state.V = e.state.V) ∧
    (e.waitKey = true → e.waitKeyRegister < 16 →
      (KeyUp e key).waitKey = false ∧
      (KeyUp e key).state.PC = wordMod (e.state.PC + 2) ∧
      getV (KeyUp e key).state e.waitKeyRegister = key ∧
      (KeyUp e key).state.Keys = e.state.Keys.set (key &&& 0xf) false) := by
  have hstep : Step e r = .cont { e with waitKey := true, waitKeyRegister := opX op } := by
    unfold Step
    rw [hI]
    simp only [MaskFamily, MaskKK, hfam, hkk]
    norm_num
    unfold waitForKeyPress
    rfl
  refine ⟨hstep, ?_, ?_, ?_⟩
  · intro hw hr r2
    have heta : { e with waitKey := true, waitKeyRegister := opX op } = e := by
      cases e
      simp_all
    have hstep2 : Step e r2 = .cont { e with waitKey := true, waitKeyRegister := opX op } := by
      unfold Step
      rw [hI]
      simp only [MaskFamily, MaskKK, hfam, hkk]
      norm_num
      unfold waitForKeyPress
      rfl
    rw [hstep2, heta]
  · intro hw
    unfold KeyDown
    exact ⟨hw, rfl, rfl⟩
  · intro hw hreg
    unfold KeyUp
    dsimp only
    rw [if_pos hw]
    refine ⟨rfl, rfl, ?_, rfl⟩
    unfold getV setV
    dsimp only
    rw [getD_set_self]
    rw [hV]
    exact hreg

/-- The machine pending on Fx0A: the result of executing LD V0, K from a
fresh machine loaded with `F0 0A`. -/
def C3cx : Emulator :=
  { Load New [0xf0, 0x0a] with waitKey := true, waitKeyRegister := 0 }

/-- Counterexample for C3 as claimed: while pending, `KeyUp 0x1F` stores
the full byte 0x1F into V[target], not its low nibble — key arguments are
not restricted to their low 4 bits in the wait-key resolution, so
`KeyUp 0x1F` and `KeyUp 0x0F` produce different machines. -/
theorem C3_wait_key_cx :
    Step (Load New [0xf0, 0x0a]) 0 = .cont C3cx ∧
    getV (KeyUp C3cx 0x1f).state 0 = 0x1f ∧
    getV (KeyUp C3cx 0x0f).state 0 = 0x0f ∧
    KeyUp C3cx 0x1f ≠ KeyUp C3cx 0x0f := by
  refine ⟨rfl, rfl, rfl, fun h => ?_⟩
  have h3 := congrArg (fun q : Emulator => getV q.state 0) h
  simp only at h3
  exact absurd h3 (by decide)

/-- Witness for C3 (amended) at the pending machine `C3cx` and key 0x1F. -/
theorem C3_wait_key_witness :
    (Step C3cx 0 = .cont { C3cx with waitKey := true, waitKeyRegister := opX 0xf00a }) ∧
    (C3cx.waitKey = true → C3cx.waitKeyRegister = opX 0xf00a →
      ∀ r2, Step C3cx r2 = .cont C3cx) ∧
    (C3cx.waitKey = true →
      (KeyDown C3cx 0x1f).waitKey = true ∧
      (KeyDown C3cx 0x1f).state.PC = C3cx.state.PC ∧
      (KeyDown C3cx 0x1f).state.V = C3cx.state.V) ∧
    (C3cx.waitKey = true → C3cx.waitKeyRegister < 16 →
      (KeyUp C3cx 0x1f).waitKey = false ∧
      (KeyUp C3cx 0x1f).state.PC = wordMod (C3cx.state.PC + 2) ∧
      getV (KeyUp C3cx 0x1f).state C3cx.waitKeyRegister = 0x1f ∧
      (KeyUp C3cx 0x1f).state.Keys = C3cx.state.Keys.set (0x1f &&& 0xf) false) :=
  C3_wait_key C3cx 0 0xf00a 0x1f (by decide) (by rfl) (by decide) (by decide)

/-! ### C6: I-relative memory accesses -/

/-- C6 (amended). I-relative memory accesses during execution are not
taken modulo 4096: every access uses the raw 16-bit effective address
directly, and an effective address ≥ 4096 aborts execution with the Go
bounds panic. Concretely: the three BCD writes of Fx33 land at the exact
addresses I, I+1, I+2 whenever I+2 < 4096, and with I = 4094 the third
write aborts after the first two have landed; the first store of Fx55, the
first load of Fx65, and the first sprite read of DRW (with n ≥ 1) abort
when I ≥ 4096. -/
theorem C6_memory_no_wrap (e : Emulator) (r op : Nat)
    (hI : Instruction e.state = Except.ok op)
    (hfam : op &&& 0xf000 = 0xf000) :
    (op &&& 0xff = 0x33 → e.state.I + 2 < 4096 →
      ∃ e2, Step e r = .cont e2 ∧
        e2.state.Memory =
          ((e.state.Memory.set e.state.I (getV e.state (opX op) / 100)).set
            (e.state.I + 1) (getV e.state (opX op) % 100 / 10)).set
            (e.state.I + 2) (getV e.state (opX op) % 10) ∧
        e2.state.I = e.state.I ∧
        e2.state.V = e.state.V ∧
        e2.state.PC = wordMod (e.state.PC + 2)) ∧
    (op &&& 0xff = 0x33 → e.state.I = 4094 →
      Step e r = .aborted (oobMsg 4096 4096)
        { e with state := { e.state with Memory := ((e.state.Memory.set 4094 (getV e.state (opX op) / 100)).set 4095 (getV e.state (opX op) % 100 / 10)) } }) ∧
    (op &&& 0xff = 0x55 → 4096 ≤ e.state.I →
      Step e r = .aborted (oobMsg e.state.I 4096) e) ∧
    (op &&& 0xff = 0x65 → 4096 ≤ e.state.I →
      Step e r = .aborted (oobMsg e.state.I 4096) e) := by
  refine ⟨?_, ?_, ?_, ?_⟩
  · intro hkk hI2
    unfold Step
    rw [hI]
    simp only [MaskFamily, MaskKK, hfam, hkk]
    norm_num
    unfold loadMemoryFromBCD memWrite liftExec
    dsimp only
    rw [if_pos (by omega : e.state.I < 4096)]
    dsimp only
    rw [show wordMod (e.state.I + 1) = e.state.I + 1 by unfold wordMod; omega]
    rw [if_pos (by omega : e.state.I + 1 < 4096)]
    dsimp only
    rw [show wordMod (e.state.I + 2) = e.state.I + 2 by unfold wordMod; omega]
    rw [if_pos (by omega : e.state.I + 2 < 4096)]
    exact ⟨_, rfl, rfl, rfl, rfl, rfl⟩
  · intro hkk hI4094
    unfold Step
    rw [hI]
    simp only [MaskFamily, MaskKK, hfam, hkk]
    norm_num
    unfold loadMemoryFromBCD memWrite liftExec
    dsimp only
    rw [hI4094]
    rw [if_pos (by omega : (4094 : Nat) < 4096)]
    dsimp only
    rw [show wordMod (4094 + 1) = 4095 by rfl]
    rw [if_pos (by omega : (4095 : Nat) < 4096)]
    dsimp only
    rw [show wordMod (4094 + 2) = 4096 by rfl]
    rw [if_neg (by omega : ¬(4096 : Nat) < 4096)]
  · intro hkk hge
    unfold Step
    rw [hI]
    simp only [MaskFamily, MaskKK, hfam, hkk]
    norm_num
    unfold loadMemoryFromRegisters storeRegsLoop memWrite liftExec
    rw [if_neg (by omega : ¬e.state.I < 4096)]
  · intro hkk hge
    unfold Step
    rw [hI]
    simp only [MaskFamily, MaskKK, hfam, hkk]
    norm_num
    unfold loadRegistersFromMemory loadRegsLoop liftExec
    rw [if_neg (by omega : ¬e.state.I < 4096)]

/-- The DRW part of C6 (amended): with n ≥ 1 and 4096 ≤ I < 65536, the
first sprite read `Memory[I]` aborts with the bounds panic; VF had already
been cleared. Stated separately from `C6_memory_no_wrap` only because the
DRW row loop needs the sprite-height decomposition `n = k + 1`. -/
theorem C6_memory_no_wrap_draw (e : Emulator) (r op : Nat)
    (hI : Instruction e.state = Except.ok op)
    (hfam : op &&& 0xf000 = 0xd000)
    (hn : op &&& 0xf ≠ 0)
    (hge : 4096 ≤ e.state.I) (hlt : e.state.I < 65536) :
    Step e r = .aborted (oobMsg e.state.I 4096)
      { e with state := setV e.state 0xf 0 } := by
  obtain ⟨k, hk⟩ : ∃ k, op &&& 0xf = k + 1 := ⟨(op &&& 0xf) - 1, by omega⟩
  unfold Step
  rw [hI]
  simp only [MaskFamily, hfam]
  norm_num
  unfold draw liftExec
  simp only [MaskN]
  rw [hk]
  unfold drawRows
  dsimp only
  rw [show wordMod ((setV e.state 0xf 0).I + 0) = e.state.I by
    unfold wordMod setV
    dsimp only
    omega]
  rw [if_neg (by omega : ¬e.state.I < 4096)]

/-- A machine with I = 4094 and V0 = 255 about to execute F033 (LD B, V0). -/
def C6cx : Emulator :=
  let b := Load New [0xf0, 0x33]
  { b with state := { b.state with
      I := 4094,
      V := [255, 0, 0, 0, 0, 0, 0, 0, 0, 0, 0, 0, 0, 0, 0, 0] } }

/-- Counterexample for C6 as claimed: with I = 4094, the third BCD write of
Fx33 would go to (I+2) mod 4096 = 0 under the claimed wrap-around, putting
255 % 10 = 5 into Memory[0]; instead the access is out of range, execution
aborts with the Go bounds panic, and Memory[0] still holds the font byte
0xF0. -/
theorem C6_memory_no_wrap_cx :
    resultKind (Step C6cx 0) = 2 ∧
    resultMsg (Step C6cx 0) = oobMsg 4096 4096 ∧
    (resultState (Step C6cx 0)).Memory.getD 0 0 = 0xf0 ∧
    (0xf0 : Nat) ≠ 5 := ⟨rfl, rfl, rfl, by decide⟩

/-- A machine with I = 0x300 and V0 = 254 about to execute F033. -/
def C6w : Emulator :=
  let b := Load New [0xf0, 0x33]
  { b with state := { b.state with
      I := 0x300,
      V := [254, 0, 0, 0, 0, 0, 0, 0, 0, 0, 0, 0, 0, 0, 0, 0] } }

/-- Witness for C6 (amended) at the concrete machine `C6w`: the BCD bytes
of 254 land at the exact addresses 0x300, 0x301, 0x302. -/
theorem C6_memory_no_wrap_witness :
    ∃ e2, Step C6w 0 = .cont e2 ∧
      e2.state.Memory =
        ((C6w.state.Memory.set C6w.state.I (getV C6w.state (opX 0xf033) / 100)).set
          (C6w.state.I + 1) (getV C6w.state (opX 0xf033) % 100 / 10)).set
          (C6w.state.I + 2) (getV C6w.state (opX 0xf033) % 10) ∧
      e2.state.I = C6w.state.I ∧
      e2.state.V = C6w.state.V ∧
      e2.state.PC = wordMod (C6w.state.PC + 2) :=
  (C6_memory_no_wrap C6w 0 0xf033 (by rfl) (by decide)).1 (by decide) (by decide)

/-! ### C2: DRW sprite drawing -/

def DispWF (s : State) : Prop :=
  s.Display.length = 32 ∧ ∀ rr, rr < 32 → (s.Display.getD rr []).length = 64

theorem dispWF_setV (s : State) (i v : Nat) (h : DispWF s) : DispWF (setV s i v) := h

theorem pixel_setV (s : State) (i v rI c : Nat) : pixel (setV s i v) rI c = pixel s rI c := rfl

theorem getV_toggle (s : State) (rI c i : Nat) : getV (togglePixel s rI c) i = getV s i := rfl

theorem dispWF_toggle (s : State) (rI c : Nat) (h : DispWF s) (hr : rI < 32) :
    DispWF (togglePixel s rI c) := by
  obtain ⟨h1, h2⟩ := h
  constructor
  · unfold togglePixel
    dsimp only
    rw [List.length_set]
    exact h1
  · intro rr hrr
    unfold togglePixel
    dsimp only
    rcases Nat.decEq rr rI with hne | heq
    · rw [getD_set_ne _ _ _ _ _ (fun hh => hne hh.symm)]
      exact h2 rr hrr
    · subst heq
      rw [getD_set_self _ _ _ _ (by omega), List.length_set]
      exact h2 rr hrr

theorem pixel_toggle_self (s : State) (rI c : Nat) (h : DispWF s)
    (hr : rI < 32) (hc : c < 64) :
    pixel (togglePixel s rI c) rI c = pixel s rI c ^^^ 1 := by
  obtain ⟨h1, h2⟩ := h
  unfold togglePixel pixel
  dsimp only
  rw [getD_set_self _ _ _ _ (by omega), getD_set_self _ _ _ _ (by rw [h2 rI hr]; omega)]

theorem pixel_toggle_row_ne (s : State) (rI c rI2 c2 : Nat) (h : rI2 ≠ rI) :
    pixel (togglePixel s rI c) rI2 c2 = pixel s rI2 c2 := by
  unfold togglePixel pixel
  dsimp only
  rw [getD_set_ne _ _ _ _ _ (fun hh => h hh.symm)]

theorem pixel_toggle_col_ne (s : State) (rI c c2 : Nat) (h : DispWF s)
    (hr : rI < 32) (hne : c2 ≠ c) :
    pixel (togglePixel s rI c) rI c2 = pixel s rI c2 := by
  obtain ⟨h1, h2⟩ := h
  unfold togglePixel pixel
  dsimp only
  rw [getD_set_self _ _ _ _ (by omega), getD_set_ne _ _ _ _ _ (fun hh => hne hh.symm)]

theorem drawCols_spec (sprite bx py : Nat) (hpy : py < 32) :
    ∀ (rem dx : Nat) (s : State), DispWF s → s.V.length = 16 →
      DispWF (drawCols sprite bx py s dx rem) ∧
      (drawCols sprite bx py s dx rem).V.length = 16 ∧
      (drawCols sprite bx py s dx rem).Memory = s.Memory ∧
      (drawCols sprite bx py s dx rem).I = s.I ∧
      (drawCols sprite bx py s dx rem).PC = s.PC ∧
      (∀ i, i ≠ 15 → getV (drawCols sprite bx py s dx rem) i = getV s i) ∧
      (∀ rr cc, rr < 32 → cc < 64 →
        ((rr = py ∧ ∃ d, dx ≤ d ∧ d < dx + rem ∧ bx + d = cc ∧
            sprite &&& (0x80 >>> d) ≠ 0) →
          pixel (drawCols sprite bx py s dx rem) rr cc = pixel s rr cc ^^^ 1) ∧
        (¬(rr = py ∧ ∃ d, dx ≤ d ∧ d < dx + rem ∧ bx + d = cc ∧
            sprite &&& (0x80 >>> d) ≠ 0) →
          pixel (drawCols sprite bx py s dx rem) rr cc = pixel s rr cc)) ∧
      (getV (drawCols sprite bx py s dx rem) 15 = 1 ↔
        getV s 15 = 1 ∨ ∃ d, dx ≤ d ∧ d < dx + rem ∧ bx + d < 64 ∧
          sprite &&& (0x80 >>> d) ≠ 0 ∧ pixel s py (bx + d) ≠ 0) := by
  intro rem
  induction rem with
  | zero =>
    intro dx s hWF hV
    unfold drawCols
    refine ⟨hWF, hV, rfl, rfl, rfl, fun i _ => rfl, ?_, ?_⟩
    · intro rr cc _ _
      constructor
      · rintro ⟨-, d, hd1, hd2, -, -⟩
        omega
      · intro
        rfl
    · constructor
      · intro h
        exact Or.inl h
      · rintro (h | ⟨d, hd1, hd2, -, -, -⟩)
        · exact h
        · omega
  | succ rem ih =>
    intro dx s hWF hV
    unfold drawCols
    by_cases hpx : bx + dx ≥ 64
    · rw [if_pos hpx]
      refine ⟨hWF, hV, rfl, rfl, rfl, fun i _ => rfl, ?_, ?_⟩
      · intro rr cc hrr hcc
        constructor
        · rintro ⟨-, d, hd1, hd2, hd3, -⟩
          omega
        · intro
          rfl
      · constructor
        · intro h
          exact Or.inl h
        · rintro (h | ⟨d, hd1, hd2, hd3, -, -⟩)
          · exact h
          · omega
    · rw [if_neg hpx]
      push_neg at hpx
      by_cases hbit : sprite &&& (0x80 >>> dx) ≠ 0
      · rw [if_pos hbit]
        have hWF0 : DispWF (if pixel s py (bx + dx) ≠ 0 then setV s 15 1 else s) := by
          split <;> exact hWF
        have hV0 : (if pixel s py (bx + dx) ≠ 0 then setV s 15 1 else s).V.length = 16 := by
          split
          · unfold setV
            dsimp only
            rw [List.length_set]
            exact hV
          · exact hV
        have hpix0 : ∀ rr cc,
            pixel (if pixel s py (bx + dx) ≠ 0 then setV s 15 1 else s) rr cc =
              pixel s rr cc := by
          intro rr cc
          split <;> rfl
        have hmem0 : (if pixel s py (bx + dx) ≠ 0 then setV s 15 1 else s).Memory =
            s.Memory := by
          split <;> rfl
        have hi0 : (if pixel s py (bx + dx) ≠ 0 then setV s 15 1 else s).I = s.I := by
          split <;> rfl
        have hpc0 : (if pixel s py (bx + dx) ≠ 0 then setV s 15 1 else s).PC = s.PC := by
          split <;> rfl
        have hgetV0 : ∀ i, i ≠ 15 →
            getV (if pixel s py (bx + dx) ≠ 0 then setV s 15 1 else s) i = getV s i := by
          intro i hi
          split
          · unfold getV setV
            dsimp only
            rw [getD_set_ne _ _ _ _ _ (fun hh => hi hh.symm)]
          · rfl
        have hvf0 : getV (if pixel s py (bx + dx) ≠ 0 then setV s 15 1 else s) 15 = 1 ↔
            getV s 15 = 1 ∨ pixel s py (bx + dx) ≠ 0 := by
          split
          · rename_i hcol
            unfold getV setV
            dsimp only
            rw [getD_set_self _ _ _ _ (by omega)]
            simp [hcol]
          · rename_i hcol
            simp [hcol]
        obtain ⟨iWF, iV, iMem, iI, iPC, igetV, ipix, ivf⟩ :=
          ih (dx + 1)
            (togglePixel (if pixel s py (bx + dx) ≠ 0 then setV s 15 1 else s) py (bx + dx))
            (dispWF_toggle _ _ _ hWF0 hpy) hV0
        have hp1row : ∀ rr cc, rr ≠ py →
            pixel (togglePixel (if pixel s py (bx + dx) ≠ 0 then setV s 15 1 else s)
              py (bx + dx)) rr cc = pixel s rr cc := by
          intro rr cc hne
          rw [pixel_toggle_row_ne _ _ _ _ _ hne, hpix0]
        have hp1col : ∀ cc, cc ≠ bx + dx →
            pixel (togglePixel (if pixel s py (bx + dx) ≠ 0 then setV s 15 1 else s)
              py (bx + dx)) py cc = pixel s py cc := by
          intro cc hne
          rw [pixel_toggle_col_ne _ _ _ _ hWF0 hpy hne, hpix0]
        have hp1self :
            pixel (togglePixel (if pixel s py (bx + dx) ≠ 0 then setV s 15 1 else s)
              py (bx + dx)) py (bx + dx) = pixel s py (bx + dx) ^^^ 1 := by
          rw [pixel_toggle_self _ _ _ hWF0 hpy (by omega), hpix0]
        refine ⟨iWF, iV, by rw [iMem]; exact hmem0, by rw [iI]; exact hi0,
          by rw [iPC]; exact hpc0, ?_, ?_, ?_⟩
        · intro i hi
          rw [igetV i hi, getV_toggle, hgetV0 i hi]
        · intro rr cc hrr hcc
          by_cases hhit : rr = py ∧ cc = bx + dx
          · obtain ⟨hr1, hc1⟩ := hhit
            have hrr2 : py < 32 := hr1 ▸ hrr
            have hcc2 : bx + dx < 64 := hc1 ▸ hcc
            rw [hr1, hc1]
            constructor
            · intro
              rw [(ipix py (bx + dx) hrr2 hcc2).2
                (by rintro ⟨-, d, hd1, hd2, hd3, -⟩; omega)]
              exact hp1self
            · intro hc
              exact absurd ⟨rfl, dx, Nat.le_refl dx, by omega, rfl, hbit⟩ hc
          · have hp1 : pixel (togglePixel
                (if pixel s py (bx + dx) ≠ 0 then setV s 15 1 else s) py (bx + dx)) rr cc =
                pixel s rr cc := by
              rcases Nat.decEq rr py with hrne | hreq
              · exact hp1row rr cc hrne
              · rw [hreq]
                exact hp1col cc (fun hh => hhit ⟨hreq, hh⟩)
            constructor
            · rintro ⟨hr1, d, hd1, hd2, hd3, hd4⟩
              have hd1b : dx + 1 ≤ d := by
                rcases Nat.decEq d dx with hdne | hdeq
                · omega
                · subst hdeq
                  exact absurd ⟨hr1, hd3.symm⟩ hhit
              rw [(ipix rr cc hrr hcc).1 ⟨hr1, d, hd1b, by omega, hd3, hd4⟩, hp1]
            · intro hc
              rw [(ipix rr cc hrr hcc).2 (by
                rintro ⟨hr1, d, hd1, hd2, hd3, hd4⟩
                exact hc ⟨hr1, d, by omega, by omega, hd3, hd4⟩), hp1]
        · rw [ivf, getV_toggle, hvf0]
          constructor
          · rintro ((h | h) | ⟨d, hd1, hd2, hd3, hd4, hd5⟩)
            · exact Or.inl h
            · exact Or.inr ⟨dx, Nat.le_refl dx, by omega, by omega, hbit, h⟩
            · refine Or.inr ⟨d, by omega, by omega, hd3, hd4, ?_⟩
              rw [hp1col (bx + d) (by omega)] at hd5
              exact hd5
          · rintro (h | ⟨d, hd1, hd2, hd3, hd4, hd5⟩)
            · exact Or.inl (Or.inl h)
            · rcases Nat.decEq d dx with hdne | hdeq
              · refine Or.inr ⟨d, by omega, by omega, hd3, hd4, ?_⟩
                rw [hp1col (bx + d) (by omega)]
                exact hd5
              · subst hdeq
                exact Or.inl (Or.inr hd5)
      · rw [if_neg hbit]
        push_neg at hbit
        obtain ⟨iWF, iV, iMem, iI, iPC, igetV, ipix, ivf⟩ := ih (dx + 1) s hWF hV
        refine ⟨iWF, iV, iMem, iI, iPC, igetV, ?_, ?_⟩
        · intro rr cc hrr hcc
          constructor
          · rintro ⟨hr1, d, hd1, hd2, hd3, hd4⟩
            have hd1b : dx + 1 ≤ d := by
              rcases Nat.decEq d dx with hdne | hdeq
              · omega
              · subst hdeq
                exact absurd hbit hd4
            exact (ipix rr cc hrr hcc).1 ⟨hr1, d, hd1b, by omega, hd3, hd4⟩
          · intro hc
            exact (ipix rr cc hrr hcc).2 (by
              rintro ⟨hr1, d, hd1, hd2, hd3, hd4⟩
              exact hc ⟨hr1, d, by omega, by omega, hd3, hd4⟩)
        · rw [ivf]
          constructor
          · rintro (h | ⟨d, hd1, hd2, hd3, hd4, hd5⟩)
            · exact Or.inl h
            · exact Or.inr ⟨d, by omega, by omega, hd3, hd4, hd5⟩
          · rintro (h | ⟨d, hd1, hd2, hd3, hd4, hd5⟩)
            · exact Or.inl h
            · refine Or.inr ⟨d, ?_, by omega, hd3, hd4, hd5⟩
              rcases Nat.decEq d dx with hdne | hdeq
              · omega
              · subst hdeq
                exact absurd hbit hd4

theorem drawRows_spec (bx by_ : Nat) (hby : by_ < 32) :
    ∀ (rem dy : Nat) (s : State), DispWF s → s.V.length = 16 →
      s.I + dy + rem ≤ 4096 →
      ∃ s2, drawRows bx by_ s dy rem = .ok s2 ∧
        DispWF s2 ∧ s2.V.length = 16 ∧
        s2.Memory = s.Memory ∧ s2.I = s.I ∧ s2.PC = s.PC ∧
        (∀ i, i ≠ 15 → getV s2 i = getV s i) ∧
        (∀ rr cc, rr < 32 → cc < 64 →
          ((∃ d, dy ≤ d ∧ d < dy + rem ∧ by_ + d = rr ∧ ∃ dd, dd < 8 ∧ bx + dd = cc ∧
              s.Memory.getD (s.I + d) 0 &&& (0x80 >>> dd) ≠ 0) →
            pixel s2 rr cc = pixel s rr cc ^^^ 1) ∧
          (¬(∃ d, dy ≤ d ∧ d < dy + rem ∧ by_ + d = rr ∧ ∃ dd, dd < 8 ∧ bx + dd = cc ∧
              s.Memory.getD (s.I + d) 0 &&& (0x80 >>> dd) ≠ 0) →
            pixel s2 rr cc = pixel s rr cc)) ∧
        (getV s2 15 = 1 ↔ getV s 15 = 1 ∨ ∃ d, dy ≤ d ∧ d < dy + rem ∧ by_ + d < 32 ∧
          ∃ dd, dd < 8 ∧ bx + dd < 64 ∧
            s.Memory.getD (s.I + d) 0 &&& (0x80 >>> dd) ≠ 0 ∧
            pixel s (by_ + d) (bx + dd) ≠ 0) := by
  intro rem
  induction rem with
  | zero =>
    intro dy s hWF hV hbound
    refine ⟨s, rfl, hWF, hV, rfl, rfl, rfl, fun i _ => rfl, ?_, ?_⟩
    · intro rr cc _ _
      constructor
      · rintro ⟨d, hd1, hd2, -⟩
        omega
      · intro
        rfl
    · constructor
      · intro h
        exact Or.inl h
      · rintro (h | ⟨d, hd1, hd2, -⟩)
        · exact h
        · omega
  | succ rem ih =>
    intro dy s hWF hV hbound
    unfold drawRows
    rw [show wordMod (s.I + dy) = s.I + dy by unfold wordMod; omega]
    rw [if_pos (by omega : s.I + dy < 4096)]
    by_cases hclip : by_ + dy ≥ 32
    · rw [if_pos hclip]
      refine ⟨s, rfl, hWF, hV, rfl, rfl, rfl, fun i _ => rfl, ?_, ?_⟩
      · intro rr cc hrr hcc
        constructor
        · rintro ⟨d, hd1, hd2, hd3, -⟩
          omega
        · intro
          rfl
      · constructor
        · intro h
          exact Or.inl h
        · rintro (h | ⟨d, hd1, hd2, hd3, -⟩)
          · exact h
          · omega
    · rw [if_neg hclip]
      push_neg at hclip
      obtain ⟨cWF, cV, cMem, cI, cPC, cgetV, cpix, cvf⟩ :=
        drawCols_spec (s.Memory.getD (s.I + dy) 0) bx (by_ + dy) (by omega) 8 0 s hWF hV
      obtain ⟨s2, hEq, jWF, jV, jMem, jI, jPC, jgetV, jpix, jvf⟩ :=
        ih (dy + 1) (drawCols (s.Memory.getD (s.I + dy) 0) bx (by_ + dy) s 0 8)
          cWF cV (by omega)
      rw [cI, cMem] at jpix jvf
      rw [cMem] at jMem
      rw [cI] at jI
      rw [cPC] at jPC
      refine ⟨s2, hEq, jWF, jV, jMem, jI, jPC, ?_, ?_, ?_⟩
      · intro i hi
        rw [jgetV i hi, cgetV i hi]
      · intro rr cc hrr hcc
        rcases Nat.decEq rr (by_ + dy) with hrne | hreq
        · have hcnone : ¬(rr = by_ + dy ∧ ∃ d, 0 ≤ d ∧ d < 0 + 8 ∧ bx + d = cc ∧
              s.Memory.getD (s.I + dy) 0 &&& (0x80 >>> d) ≠ 0) := by
            rintro ⟨h1, -⟩
            exact hrne h1
          have hcp : pixel (drawCols (s.Memory.getD (s.I + dy) 0) bx (by_ + dy) s 0 8) rr cc =
              pixel s rr cc := (cpix rr cc hrr hcc).2 hcnone
          constructor
          · rintro ⟨d, hd1, hd2, hd3, dd, hdd1, hdd2, hdd3⟩
            have hdne : dy + 1 ≤ d := by
              rcases Nat.decEq d dy with h2 | h2
              · omega
              · rw [h2] at hd3
                exact absurd hd3.symm hrne
            rw [(jpix rr cc hrr hcc).1 ⟨d, hdne, by omega, hd3, dd, hdd1, hdd2, hdd3⟩, hcp]
          · intro hc
            rw [(jpix rr cc hrr hcc).2 (by
              rintro ⟨d, hd1, hd2, hd3, dd, hdd⟩
              exact hc ⟨d, by omega, by omega, hd3, dd, hdd⟩), hcp]
        · constructor
          · rintro ⟨d, hd1, hd2, hd3, dd, hdd1, hdd2, hdd3⟩
            have hddy : d = dy := by omega
            rw [hddy] at hdd3
            have hjnone : ¬(∃ d, dy + 1 ≤ d ∧ d < dy + 1 + rem ∧ by_ + d = rr ∧
                ∃ dd, dd < 8 ∧ bx + dd = cc ∧
                  s.Memory.getD (s.I + d) 0 &&& (0x80 >>> dd) ≠ 0) := by
              rintro ⟨d2, hd21, hd22, hd23, -⟩
              omega
            rw [(jpix rr cc hrr hcc).2 hjnone]
            exact (cpix rr cc hrr hcc).1 ⟨hreq, dd, by omega, by omega, hdd2, hdd3⟩
          · intro hc
            have hjnone : ¬(∃ d, dy + 1 ≤ d ∧ d < dy + 1 + rem ∧ by_ + d = rr ∧
                ∃ dd, dd < 8 ∧ bx + dd = cc ∧
                  s.Memory.getD (s.I + d) 0 &&& (0x80 >>> dd) ≠ 0) := by
              rintro ⟨d2, hd21, hd22, hd23, -⟩
              omega
            rw [(jpix rr cc hrr hcc).2 hjnone]
            refine (cpix rr cc hrr hcc).2 ?_
            rintro ⟨h1, dd, hdd0, hdd8, hddc, hddbit⟩
            exact hc ⟨dy, Nat.le_refl dy, by omega, hreq.symm, dd, by omega, hddc, hddbit⟩
      · rw [jvf, cvf]
        constructor
        · rintro ((h | ⟨dc, hdc0, hdc8, hdc64, hdcbit, hdcpix⟩) |
            ⟨d, hd1, hd2, hd3, dd, hdd1, hdd2, hdd3, hdd4⟩)
          · exact Or.inl h
          · exact Or.inr ⟨dy, Nat.le_refl dy, by omega, by omega, dc, by omega, hdc64,
              hdcbit, hdcpix⟩
          · have hpixs : pixel (drawCols (s.Memory.getD (s.I + dy) 0) bx (by_ + dy) s 0 8)
                (by_ + d) (bx + dd) = pixel s (by_ + d) (bx + dd) := by
              refine (cpix (by_ + d) (bx + dd) hd3 hdd2).2 ?_
              rintro ⟨h1, -⟩
              omega
            rw [hpixs] at hdd4
            exact Or.inr ⟨d, by omega, by omega, hd3, dd, hdd1, hdd2, hdd3, hdd4⟩
        · rintro (h | ⟨d, hd1, hd2, hd3, dd, hdd1, hdd2, hdd3, hdd4⟩)
          · exact Or.inl (Or.inl h)
          · rcases Nat.decEq d dy with hdne | hdeq
            · have hpixs : pixel (drawCols (s.Memory.getD (s.I + dy) 0) bx (by_ + dy) s 0 8)
                  (by_ + d) (bx + dd) = pixel s (by_ + d) (bx + dd) := by
                refine (cpix (by_ + d) (bx + dd) hd3 hdd2).2 ?_
                rintro ⟨h1, -⟩
                omega
              refine Or.inr ⟨d, by omega, by omega, hd3, dd, hdd1, hdd2, hdd3, ?_⟩
              rw [hpixs]
              exact hdd4
            · rw [hdeq] at hdd3 hdd4
              exact Or.inl (Or.inr ⟨dd, by omega, by omega, hdd2, hdd3, hdd4⟩)

def DispBits (s : State) : Prop := ∀ row ∈ s.Display, ∀ v ∈ row, v < 2

theorem pixel_lt_two (s : State) (h : DispWF s) (hb : DispBits s) (rI c : Nat)
    (hr : rI < 32) (hc : c < 64) : pixel s rI c < 2 := by
  obtain ⟨h1, h2⟩ := h
  have hrl : rI < s.Display.length := by omega
  have hrow : s.Display.getD rI [] ∈ s.Display := by
    rw [List.getD_eq_getElem _ _ hrl]
    exact List.getElem_mem _
  have hcl : c < (s.Display.getD rI []).length := by
    rw [h2 rI hr]
    omega
  have hv : (s.Display.getD rI []).getD c 0 ∈ s.Display.getD rI [] := by
    rw [List.getD_eq_getElem _ _ hcl]
    exact List.getElem_mem _
  exact hb _ hrow _ hv

def sbit (s : State) (bx by_ n rI c : Nat) : Nat :=
  if by_ ≤ rI ∧ rI < by_ + n ∧ bx ≤ c ∧ c < bx + 8 ∧
      s.Memory.getD (s.I + (rI - by_)) 0 &&& (0x80 >>> (c - bx)) ≠ 0
  then 1 else 0

theorem sbit_eq_one (s : State) (bx by_ n rI c : Nat) :
    sbit s bx by_ n rI c = 1 ↔
      by_ ≤ rI ∧ rI < by_ + n ∧ bx ≤ c ∧ c < bx + 8 ∧
        s.Memory.getD (s.I + (rI - by_)) 0 &&& (0x80 >>> (c - bx)) ≠ 0 := by
  unfold sbit
  split
  · simp_all
  · simp_all

theorem C2_draw (e : Emulator) (r op : Nat)
    (hV : e.state.V.length = 16)
    (hWF : DispWF e.state) (hbits : DispBits e.state)
    (hI : Instruction e.state = Except.ok op)
    (hfam : op &&& 0xf000 = 0xd000)
    (hrange : e.state.I + (op &&& 0xf) ≤ 4096) :
    ∃ e2, Step e r = .cont e2 ∧
      (∀ rI c, rI < 32 → c < 64 →
        pixel e2.state rI c =
          pixel e.state rI c ^^^
            sbit e.state (getV (setV e.state 15 0) (opX op) % 64)
              (getV (setV e.state 15 0) (opY op) % 32) (op &&& 0xf) rI c) ∧
      (getV e2.state 15 = 1 ↔ ∃ rI, rI < 32 ∧ ∃ c, c < 64 ∧
        sbit e.state (getV (setV e.state 15 0) (opX op) % 64)
          (getV (setV e.state 15 0) (opY op) % 32) (op &&& 0xf) rI c = 1 ∧
        pixel e.state rI c = 1) ∧
      ((opX op ≠ 15 → getV (setV e.state 15 0) (opX op) = getV e.state (opX op)) ∧
       (opY op ≠ 15 → getV (setV e.state 15 0) (opY op) = getV e.state (opY op)) ∧
       getV (setV e.state 15 0) 15 = 0) ∧
      e2.state.PC = wordMod (e.state.PC + 2) ∧
      (∀ i, i ≠ 15 → getV e2.state i = getV e.state i) ∧
      e2.state.Memory = e.state.Memory ∧ e2.state.I = e.state.I := by
  have hby32 : getV (setV e.state 15 0) (opY op) % 32 < 32 := Nat.mod_lt _ (by norm_num)
  have hs0V : (setV e.state 15 0).V.length = 16 := by
    unfold setV
    dsimp only
    rw [List.length_set]
    exact hV
  have hs0I : (setV e.state 15 0).I = e.state.I := rfl
  have hs0Mem : (setV e.state 15 0).Memory = e.state.Memory := rfl
  have hs0pix : ∀ rr cc, pixel (setV e.state 15 0) rr cc = pixel e.state rr cc :=
    fun _ _ => rfl
  have hvf0 : getV (setV e.state 15 0) 15 = 0 := by
    unfold getV setV
    dsimp only
    rw [getD_set_self _ _ _ _ (by omega)]
  obtain ⟨s2, hEq, jWF, jV, jMem, jI, jPC, jgetV, jpix, jvf⟩ :=
    drawRows_spec (getV (setV e.state 15 0) (opX op) % 64)
      (getV (setV e.state 15 0) (opY op) % 32) hby32 (op &&& 0xf) 0
      (setV e.state 15 0) hWF hs0V (by rw [hs0I]; omega)
  rw [hs0I, hs0Mem] at jpix jvf
  rw [hs0Mem] at jMem
  rw [hs0I] at jI
  unfold Step
  rw [hI]
  simp only [MaskFamily, hfam]
  norm_num
  unfold draw liftExec
  simp only [MaskN, DisplayWidth, DisplayHeight]
  rw [hEq]
  refine ⟨_, rfl, ?_, ?_, ?_, ?_, ?_, ?_, ?_⟩
  · intro rI c hr hc
    show pixel s2 rI c = _
    by_cases hcond : ∃ d, 0 ≤ d ∧ d < 0 + (op &&& 0xf) ∧
        getV (setV e.state 15 0) (opY op) % 32 + d = rI ∧
        ∃ dd, dd < 8 ∧ getV (setV e.state 15 0) (opX op) % 64 + dd = c ∧
          e.state.Memory.getD (e.state.I + d) 0 &&& (0x80 >>> dd) ≠ 0
    · obtain ⟨d, hd0, hdn, hdr, dd, hdd8, hddc, hddbit⟩ := hcond
      have hsb : sbit e.state (getV (setV e.state 15 0) (opX op) % 64)
          (getV (setV e.state 15 0) (opY op) % 32) (op &&& 0xf) rI c = 1 := by
        rw [sbit_eq_one]
        refine ⟨by omega, by omega, by omega, by omega, ?_⟩
        rw [show rI - getV (setV e.state 15 0) (opY op) % 32 = d by omega,
          show c - getV (setV e.state 15 0) (opX op) % 64 = dd by omega]
        exact hddbit
      rw [hsb]
      rw [(jpix rI c hr hc).1 ⟨d, hd0, hdn, hdr, dd, hdd8, hddc, hddbit⟩, hs0pix]
    · have hsb : sbit e.state (getV (setV e.state 15 0) (opX op) % 64)
          (getV (setV e.state 15 0) (opY op) % 32) (op &&& 0xf) rI c = 0 := by
        unfold sbit
        rw [if_neg]
        rintro ⟨hb1, hb2, hb3, hb4, hb5⟩
        refine hcond ⟨rI - getV (setV e.state 15 0) (opY op) % 32, by omega, by omega,
          by omega, c - getV (setV e.state 15 0) (opX op) % 64, by omega, by omega, hb5⟩
      rw [hsb, Nat.xor_zero]
      rw [(jpix rI c hr hc).2 (fun hcc => hcond hcc), hs0pix]
  · show getV s2 15 = 1 ↔ _
    rw [jvf, hvf0]
    constructor
    · rintro (h01 | ⟨d, hd0, hdn, hdr32, dd, hdd8, hddc64, hddbit, hddpix⟩)
      · exact absurd h01 (by decide)
      rw [hs0pix] at hddpix
      refine ⟨getV (setV e.state 15 0) (opY op) % 32 + d, by omega,
        getV (setV e.state 15 0) (opX op) % 64 + dd, by omega, ?_, ?_⟩
      · rw [sbit_eq_one]
        refine ⟨by omega, by omega, by omega, by omega, ?_⟩
        rw [show getV (setV e.state 15 0) (opY op) % 32 + d -
              getV (setV e.state 15 0) (opY op) % 32 = d by omega,
          show getV (setV e.state 15 0) (opX op) % 64 + dd -
              getV (setV e.state 15 0) (opX op) % 64 = dd by omega]
        exact hddbit
      · have := pixel_lt_two e.state hWF hbits
          (getV (setV e.state 15 0) (opY op) % 32 + d)
          (getV (setV e.state 15 0) (opX op) % 64 + dd) (by omega) (by omega)
        omega
    · rintro ⟨rI, hr, c, hc, hsb, hpix⟩
      rw [sbit_eq_one] at hsb
      obtain ⟨hb1, hb2, hb3, hb4, hb5⟩ := hsb
      refine Or.inr ⟨rI - getV (setV e.state 15 0) (opY op) % 32, by omega, by omega,
        by omega, c - getV (setV e.state 15 0) (opX op) % 64, by omega, by omega, hb5, ?_⟩
      rw [hs0pix]
      rw [show getV (setV e.state 15 0) (opY op) % 32 +
            (rI - getV (setV e.state 15 0) (opY op) % 32) = rI by omega,
        show getV (setV e.state 15 0) (opX op) % 64 +
            (c - getV (setV e.state 15 0) (opX op) % 64) = c by omega]
      omega
  · refine ⟨?_, ?_, hvf0⟩
    · intro hx
      unfold getV setV
      dsimp only
      rw [getD_set_ne _ _ _ _ _ (fun hh => hx hh.symm)]
    · intro hy
      unfold getV setV
      dsimp only
      rw [getD_set_ne _ _ _ _ _ (fun hh => hy hh.symm)]
  · show wordMod (s2.PC + 2) = _
    rw [jPC]
    rfl
  · intro i hi
    show getV s2 i = _
    rw [jgetV i hi]
    unfold getV setV
    dsimp only
    rw [getD_set_ne _ _ _ _ _ (fun hh => hi hh.symm)]
  · exact jMem
  · exact jI

/-- A machine about to execute DF01 (DRW VF, V0, 1) with VF = 1 and a
sprite byte 0xF0 at I = 0 (the first byte of the built-in font for 0). -/
def C2cx : Emulator :=
  let b := Load New [0xdf, 0x01]
  { b with state := { b.state with
      I := 0,
      V := [0, 0, 0, 0, 0, 0, 0, 0, 0, 0, 0, 0, 0, 0, 0, 1] } }

/-- Counterexample for C2 as claimed: with x = 15 the sprite origin is NOT
(Vx mod 64, Vy mod 32). Here VF = Vx = 1, so the claimed origin column is 1
and the sprite byte 0xF0 would light columns 1..4 of row 0; instead draw
clears VF before reading the origin registers, draws at column 0, and the
step leaves pixel (0,4) dark while lighting pixel (0,0). -/
theorem C2_draw_cx :
    getV C2cx.state 15 = 1 ∧
    C2cx.state.Memory.getD C2cx.state.I 0 = 0xf0 ∧
    resultKind (Step C2cx 0) = 0 ∧
    pixel (resultState (Step C2cx 0)) 0 0 = 1 ∧
    pixel (resultState (Step C2cx 0)) 0 4 = 0 :=
  ⟨rfl, rfl, rfl, rfl, rfl⟩

/-- A machine about to execute DF01 with VF = 1 and sprite byte 0xF0 at I = 0,
used to instantiate the amended draw theorem. -/
def C2w : Emulator :=
  let b := Load New [0xdf, 0x01]
  { b with state := { b.state with
      I := 0,
      V := [0, 0, 0, 0, 0, 0, 0, 0, 0, 0, 0, 0, 0, 0, 0, 1] } }

/-- Witness for C2 (amended) at the concrete machine `C2w`: the step
continues, every on-screen pixel is the XOR of the old pixel with the
sprite bit taken relative to the origin registers read after VF is cleared,
and PC advances by 2. -/
theorem C2_draw_witness :
    ∃ e2, Step C2w 0 = .cont e2 ∧
      (∀ rI c, rI < 32 → c < 64 →
        pixel e2.state rI c =
          pixel C2w.state rI c ^^^
            sbit C2w.state (getV (setV C2w.state 15 0) (opX 0xdf01) % 64)
              (getV (setV C2w.state 15 0) (opY 0xdf01) % 32) (0xdf01 &&& 0xf) rI c) ∧
      e2.state.PC = wordMod (C2w.state.PC + 2) := by
  obtain ⟨e2, h1, h2, _, _, h5, _⟩ :=
    C2_draw C2w 0 0xdf01 (by rfl) ⟨by rfl, by decide⟩ (by unfold DispBits; decide)
      (by rfl) (by decide) (by decide)
  exact ⟨e2, h1, h2, h5⟩

/-! ### C9: disassembler -/

/-- Counterexample for C9 as claimed: Dxyn does not render per the DRW table
row (it prints "draw", not "drw"); 5xyn and 9xyn with a nonzero low nibble
are outside the table yet render as "se"/"sne" instead of "unknown (xxxx)";
and 01E0 is outside the table yet renders as "cls". -/
theorem C9_disassembler_cx :
    (instructionString 0xd012 = "draw v0, v1, 2" ∧ "draw v0, v1, 2" ≠ "drw v0, v1, 2") ∧
    (instructionString 0x5121 = "se v1, v2" ∧ "se v1, v2" ≠ "unknown (5121)") ∧
    (instructionString 0x9233 = "sne v2, v3" ∧ "sne v2, v3" ≠ "unknown (9233)") ∧
    (instructionString 0x01e0 = "cls" ∧ "cls" ≠ "unknown (01e0)") :=
  ⟨⟨rfl, by decide⟩, ⟨rfl, by decide⟩, ⟨rfl, by decide⟩, ⟨rfl, by decide⟩⟩

/-- C9 (amended). The disassembler is total and renders every table row with
its lowercase mnemonic and comma-separated operands, except: Dxyn renders as
"draw vx, vy, n" (not the table mnemonic DRW); families 5 and 9 render as
"se vx, vy" / "sne vx, vy" for EVERY low nibble (not only 5xy0/9xy0); and a
0NNN opcode renders as "cls"/"ret" whenever its low byte is E0/EE, for every
NNN. All remaining opcodes render as "unknown (xxxx)". -/
theorem C9_disassembler :
    (∀ op, op &&& 0xf000 = 0x0000 → op &&& 0xff = 0xe0 → instructionString op = "cls") ∧
    (∀ op, op &&& 0xf000 = 0x0000 → op &&& 0xff = 0xee → instructionString op = "ret") ∧
    (∀ op, op &&& 0xf000 = 0x0000 → op &&& 0xff ≠ 0xe0 → op &&& 0xff ≠ 0xee →
      instructionString op = "unknown (" ++ hex4 op ++ ")") ∧
    (∀ op, op &&& 0xf000 = 0x1000 → instructionString op = "jp " ++ hex3 (op &&& 0xfff)) ∧
    (∀ op, op &&& 0xf000 = 0x2000 → instructionString op = "call " ++ hex3 (op &&& 0xfff)) ∧
    (∀ op, op &&& 0xf000 = 0x3000 → instructionString op = "se " ++ ("v" ++ hex1 (opX op)) ++ ", " ++ hex2 (op &&& 0xff)) ∧
    (∀ op, op &&& 0xf000 = 0x4000 → instructionString op = "sne " ++ ("v" ++ hex1 (opX op)) ++ ", " ++ hex2 (op &&& 0xff)) ∧
    (∀ op, op &&& 0xf000 = 0x5000 → instructionString op = "se " ++ ("v" ++ hex1 (opX op)) ++ ", " ++ ("v" ++ hex1 (opY op))) ∧
    (∀ op, op &&& 0xf000 = 0x6000 → instructionString op = "ld " ++ ("v" ++ hex1 (opX op)) ++ ", " ++ hex2 (op &&& 0xff)) ∧
    (∀ op, op &&& 0xf000 = 0x7000 → instructionString op = "add " ++ ("v" ++ hex1 (opX op)) ++ ", " ++ hex2 (op &&& 0xff)) ∧
    (∀ op, op &&& 0xf000 = 0x8000 → op &&& 0xf = 0x0 →
      instructionString op = "ld " ++ ("v" ++ hex1 (opX op)) ++ ", " ++ ("v" ++ hex1 (opY op))) ∧
    (∀ op, op &&& 0xf000 = 0x8000 → op &&& 0xf = 0x1 →
      instructionString op = "or " ++ ("v" ++ hex1 (opX op)) ++ ", " ++ ("v" ++ hex1 (opY op))) ∧
    (∀ op, op &&& 0xf000 = 0x8000 → op &&& 0xf = 0x2 →
      instructionString op = "and " ++ ("v" ++ hex1 (opX op)) ++ ", " ++ ("v" ++ hex1 (opY op))) ∧
    (∀ op, op &&& 0xf000 = 0x8000 → op &&& 0xf = 0x3 →
      instructionString op = "xor " ++ ("v" ++ hex1 (opX op)) ++ ", " ++ ("v" ++ hex1 (opY op))) ∧
    (∀ op, op &&& 0xf000 = 0x8000 → op &&& 0xf = 0x4 →
      instructionString op = "add " ++ ("v" ++ hex1 (opX op)) ++ ", " ++ ("v" ++ hex1 (opY op))) ∧
    (∀ op, op &&& 0xf000 = 0x8000 → op &&& 0xf = 0x5 →
      instructionString op = "sub " ++ ("v" ++ hex1 (opX op)) ++ ", " ++ ("v" ++ hex1 (opY op))) ∧
    (∀ op, op &&& 0xf000 = 0x8000 → op &&& 0xf = 0x6 →
      instructionString op = "shr " ++ ("v" ++ hex1 (opX op)) ++ ", " ++ ("v" ++ hex1 (opY op))) ∧
    (∀ op, op &&& 0xf000 = 0x8000 → op &&& 0xf = 0x7 →
      instructionString op = "subn " ++ ("v" ++ hex1 (opX op)) ++ ", " ++ ("v" ++ hex1 (opY op))) ∧
    (∀ op, op &&& 0xf000 = 0x8000 → op &&& 0xf = 0xe →
      instructionString op = "shl " ++ ("v" ++ hex1 (opX op)) ++ ", " ++ ("v" ++ hex1 (opY op))) ∧
    (∀ op, op &&& 0xf000 = 0x8000 → op &&& 0xf ≠ 0x0 → op &&& 0xf ≠ 0x1 → op &&& 0xf ≠ 0x2 → op &&& 0xf ≠ 0x3 → op &&& 0xf ≠ 0x4 → op &&& 0xf ≠ 0x5 → op &&& 0xf ≠ 0x6 → op &&& 0xf ≠ 0x7 → op &&& 0xf ≠ 0xe →
      instructionString op = "unknown (" ++ hex4 op ++ ")") ∧
    (∀ op, op &&& 0xf000 = 0x9000 → instructionString op = "sne " ++ ("v" ++ hex1 (opX op)) ++ ", " ++ ("v" ++ hex1 (opY op))) ∧
    (∀ op, op &&& 0xf000 = 0xa000 → instructionString op = "ld i, " ++ hex3 (op &&& 0xfff)) ∧
    (∀ op, op &&& 0xf000 = 0xb000 → instructionString op = "jp v0, " ++ hex3 (op &&& 0xfff)) ∧
    (∀ op, op &&& 0xf000 = 0xc000 → instructionString op = "rnd " ++ ("v" ++ hex1 (opX op)) ++ ", " ++ hex2 (op &&& 0xff)) ∧
    (∀ op, op &&& 0xf000 = 0xd000 →
      instructionString op = "draw " ++ ("v" ++ hex1 (opX op)) ++ ", " ++ ("v" ++ hex1 (opY op)) ++ ", " ++ hex1 (op &&& 0xf)) ∧
    (∀ op, op &&& 0xf000 = 0xe000 → op &&& 0xff = 0x9e → instructionString op = "skp " ++ ("v" ++ hex1 (opX op))) ∧
    (∀ op, op &&& 0xf000 = 0xe000 → op &&& 0xff = 0xa1 → instructionString op = "sknp " ++ ("v" ++ hex1 (opX op))) ∧
    (∀ op, op &&& 0xf000 = 0xe000 → op &&& 0xff ≠ 0x9e → op &&& 0xff ≠ 0xa1 →
      instructionString op = "unknown (" ++ hex4 op ++ ")") ∧
    (∀ op, op &&& 0xf000 = 0xf000 → op &&& 0xff = 0x07 → instructionString op = "ld " ++ ("v" ++ hex1 (opX op)) ++ ", dt") ∧
    (∀ op, op &&& 0xf000 = 0xf000 → op &&& 0xff = 0x0a → instructionString op = "ld " ++ ("v" ++ hex1 (opX op)) ++ ", k") ∧
    (∀ op, op &&& 0xf000 = 0xf000 → op &&& 0xff = 0x15 → instructionString op = "ld dt, " ++ ("v" ++ hex1 (opX op))) ∧
    (∀ op, op &&& 0xf000 = 0xf000 → op &&& 0xff = 0x18 → instructionString op = "ld st, " ++ ("v" ++ hex1 (opX op))) ∧
    (∀ op, op &&& 0xf000 = 0xf000 → op &&& 0xff = 0x1e → instructionString op = "add i, " ++ ("v" ++ hex1 (opX op))) ∧
    (∀ op, op &&& 0xf000 = 0xf000 → op &&& 0xff = 0x29 → instructionString op = "ld f, " ++ ("v" ++ hex1 (opX op))) ∧
    (∀ op, op &&& 0xf000 = 0xf000 → op &&& 0xff = 0x33 → instructionString op = "ld b, " ++ ("v" ++ hex1 (opX op))) ∧
    (∀ op, op &&& 0xf000 = 0xf000 → op &&& 0xff = 0x55 → instructionString op = "ld [i], " ++ ("v" ++ hex1 (opX op))) ∧
    (∀ op, op &&& 0xf000 = 0xf000 → op &&& 0xff = 0x65 → instructionString op = "ld " ++ ("v" ++ hex1 (opX op)) ++ ", [i]") ∧
    (∀ op, op &&& 0xf000 = 0xf000 → op &&& 0xff ≠ 0x07 → op &&& 0xff ≠ 0x0a → op &&& 0xff ≠ 0x15 → op &&& 0xff ≠ 0x18 → op &&& 0xff ≠ 0x1e → op &&& 0xff ≠ 0x29 → op &&& 0xff ≠ 0x33 → op &&& 0xff ≠ 0x55 → op &&& 0xff ≠ 0x65 →
      instructionString op = "unknown (" ++ hex4 op ++ ")") := by
  refine ⟨?_, ?_, ?_, ?_, ?_, ?_, ?_, ?_, ?_, ?_, ?_, ?_, ?_, ?_, ?_, ?_, ?_, ?_, ?_, ?_, ?_, ?_, ?_, ?_, ?_, ?_, ?_, ?_, ?_, ?_, ?_, ?_, ?_, ?_, ?_, ?_, ?_, ?_⟩
  · intro op hfam hkk
    simp only [instructionString, MaskFamily, MaskKK, hfam, hkk]
    norm_num
  · intro op hfam hkk
    simp only [instructionString, MaskFamily, MaskKK, hfam, hkk]
    norm_num
  · intro op hfam he0 hee
    simp only [instructionString, MaskFamily, MaskKK, hfam]
    norm_num
    rw [if_neg he0, if_neg hee]
  · intro op hfam
    simp only [instructionString, MaskFamily, MaskX, MaskY, MaskN, MaskKK, MaskNNN,
      ShiftX, ShiftY, hfam]
    norm_num
  · intro op hfam
    simp only [instructionString, MaskFamily, MaskX, MaskY, MaskN, MaskKK, MaskNNN,
      ShiftX, ShiftY, hfam]
    norm_num
  · intro op hfam
    simp only [instructionString, MaskFamily, MaskX, MaskY, MaskN, MaskKK, MaskNNN,
      ShiftX, ShiftY, opX, hfam]
    norm_num
  · intro op hfam
    simp only [instructionString, MaskFamily, MaskX, MaskY, MaskN, MaskKK, MaskNNN,
      ShiftX, ShiftY, opX, hfam]
    norm_num
  · intro op hfam
    simp only [instructionString, MaskFamily, MaskX, MaskY, MaskN, MaskKK, MaskNNN,
      ShiftX, ShiftY, opX, opY, hfam]
    norm_num
  · intro op hfam
    simp only [instructionString, MaskFamily, MaskX, MaskY, MaskN, MaskKK, MaskNNN,
      ShiftX, ShiftY, opX, hfam]
    norm_num
  · intro op hfam
    simp only [instructionString, MaskFamily, MaskX, MaskY, MaskN, MaskKK, MaskNNN,
      ShiftX, ShiftY, opX, hfam]
    norm_num
  · intro op hfam hn
    simp only [instructionString, MaskFamily, MaskX, MaskY, MaskN, MaskKK, MaskNNN,
      ShiftX, ShiftY, opX, opY, hfam, hn]
    norm_num
  · intro op hfam hn
    simp only [instructionString, MaskFamily, MaskX, MaskY, MaskN, MaskKK, MaskNNN,
      ShiftX, ShiftY, opX, opY, hfam, hn]
    norm_num
  · intro op hfam hn
    simp only [instructionString, MaskFamily, MaskX, MaskY, MaskN, MaskKK, MaskNNN,
      ShiftX, ShiftY, opX, opY, hfam, hn]
    norm_num
  · intro op hfam hn
    simp only [instructionString, MaskFamily, MaskX, MaskY, MaskN, MaskKK, MaskNNN,
      ShiftX, ShiftY, opX, opY, hfam, hn]
    norm_num
  · intro op hfam hn
    simp only [instructionString, MaskFamily, MaskX, MaskY, MaskN, MaskKK, MaskNNN,
      ShiftX, ShiftY, opX, opY, hfam, hn]
    norm_num
  · intro op hfam hn
    simp only [instructionString, MaskFamily, MaskX, MaskY, MaskN, MaskKK, MaskNNN,
      ShiftX, ShiftY, opX, opY, hfam, hn]
    norm_num
  · intro op hfam hn
    simp only [instructionString, MaskFamily, MaskX, MaskY, MaskN, MaskKK, MaskNNN,
      ShiftX, ShiftY, opX, opY, hfam, hn]
    norm_num
  · intro op hfam hn
    simp only [instructionString, MaskFamily, MaskX, MaskY, MaskN, MaskKK, MaskNNN,
      ShiftX, ShiftY, opX, opY, hfam, hn]
    norm_num
  · intro op hfam hn
    simp only [instructionString, MaskFamily, MaskX, MaskY, MaskN, MaskKK, MaskNNN,
      ShiftX, ShiftY, opX, opY, hfam, hn]
    norm_num
  · intro op hfam h0 h1 h2 h3 h4 h5 h6 h7 he
    simp only [instructionString, MaskFamily, MaskN, hfam]
    norm_num
    rw [if_neg h0, if_neg h1, if_neg h2, if_neg h3, if_neg h4, if_neg h5, if_neg h6,
      if_neg h7, if_neg he]
  · intro op hfam
    simp only [instructionString, MaskFamily, MaskX, MaskY, MaskN, MaskKK, MaskNNN,
      ShiftX, ShiftY, opX, opY, hfam]
    norm_num
  · intro op hfam
    simp only [instructionString, MaskFamily, MaskX, MaskY, MaskN, MaskKK, MaskNNN,
      ShiftX, ShiftY, hfam]
    norm_num
  · intro op hfam
    simp only [instructionString, MaskFamily, MaskX, MaskY, MaskN, MaskKK, MaskNNN,
      ShiftX, ShiftY, hfam]
    norm_num
  · intro op hfam
    simp only [instructionString, MaskFamily, MaskX, MaskY, MaskN, MaskKK, MaskNNN,
      ShiftX, ShiftY, opX, hfam]
    norm_num
  · intro op hfam
    simp only [instructionString, MaskFamily, MaskX, MaskY, MaskN, MaskKK, MaskNNN,
      ShiftX, ShiftY, opX, opY, hfam]
    norm_num
  · intro op hfam hkk
    simp only [instructionString, MaskFamily, MaskX, MaskKK, ShiftX, opX, hfam, hkk]
    norm_num
  · intro op hfam hkk
    simp only [instructionString, MaskFamily, MaskX, MaskKK, ShiftX, opX, hfam, hkk]
    norm_num
  · intro op hfam h9e ha1
    simp only [instructionString, MaskFamily, MaskKK, hfam]
    norm_num
    rw [if_neg h9e, if_neg ha1]
  · intro op hfam hkk
    simp only [instructionString, MaskFamily, MaskX, MaskKK, ShiftX, opX, hfam, hkk]
    norm_num
  · intro op hfam hkk
    simp only [instructionString, MaskFamily, MaskX, MaskKK, ShiftX, opX, hfam, hkk]
    norm_num
  · intro op hfam hkk
    simp only [instructionString, MaskFamily, MaskX, MaskKK, ShiftX, opX, hfam, hkk]
    norm_num
  · intro op hfam hkk
    simp only [instructionString, MaskFamily, MaskX, MaskKK, ShiftX, opX, hfam, hkk]
    norm_num
  · intro op hfam hkk
    simp only [instructionString, MaskFamily, MaskX, MaskKK, ShiftX, opX, hfam, hkk]
    norm_num
  · intro op hfam hkk
    simp only [instructionString, MaskFamily, MaskX, MaskKK, ShiftX, opX, hfam, hkk]
    norm_num
  · intro op hfam hkk
    simp only [instructionString, MaskFamily, MaskX, MaskKK, ShiftX, opX, hfam, hkk]
    norm_num
  · intro op hfam hkk
    simp only [instructionString, MaskFamily, MaskX, MaskKK, ShiftX, opX, hfam, hkk]
    norm_num
  · intro op hfam hkk
    simp only [instructionString, MaskFamily, MaskX, MaskKK, ShiftX, opX, hfam, hkk]
    norm_num
  · intro op hfam h07 h0a h15 h18 h1e h29 h33 h55 h65
    simp only [instructionString, MaskFamily, MaskKK, hfam]
    norm_num
    rw [if_neg h07, if_neg h0a, if_neg h15, if_neg h18, if_neg h1e, if_neg h29,
      if_neg h33, if_neg h55, if_neg h65]

/-- Witness for C9 (amended) at concrete opcodes: 8126 renders as
"shr v1, v2", 00E0 as "cls", and 8009 as "unknown (8009)". -/
theorem C9_disassembler_witness :
    instructionString 0x8126 = "shr v1, v2" ∧
    instructionString 0x00e0 = "cls" ∧
    instructionString 0x8009 = "unknown (8009)" := by
  obtain ⟨hcls, -, -, -, -, -, -, -, -, -, -, -, -, -, -, -, hshr, -, -, hunk8,
    -, -, -, -, -, -, -, -, -, -, -, -, -, -, -, -, -, -⟩ := C9_disassembler
  refine ⟨?_, ?_, ?_⟩
  · exact hshr 0x8126 rfl rfl
  · exact hcls 0xe0 rfl rfl
  · exact hunk8 0x8009 rfl (by decide) (by decide) (by decide) (by decide) (by decide)
      (by decide) (by decide) (by decide) (by decide)

end Chip8
